import Mathlib

/-!
Verification of the dialogue core of the university help-desk chatbot.

This file gives a shallow embedding, in Lean 4, of the dialogue core of the
repository: the multilingual FAQ engine (`services/faq_service.py`) and the
Telegram session / selection flow (`telegram_bot.py`), together with theorems
settling the stated properties of that code.

Conventions of the embedding:
* Python strings are modelled as `List Char` (Unicode codepoints); `String`
  appears only at API boundaries and is converted with `String.data`.
* Python floats are modelled as exact rationals (`ℚ`); `round(x, 2)` is
  modelled as round-half-to-even on rationals.
* Python `None` becomes `Option`, and Python truthiness of strings / ints is
  modelled explicitly (`pyOr`, `pyTruthyId`).
* The external collaborators (database lookups, knowledge service, generative
  backend, Telegram transport) are inputs to the embedded functions: each
  handler receives the data the Python code would fetch and returns the new
  session state together with the text it would send.
* `difflib.SequenceMatcher` (Python standard library, used via
  `FAQMatcher._similarity`) is embedded concretely below, following the
  stdlib algorithm with `isjunk = None` and `autojunk = True`.
-/

-- Batteries marks the arithmetic of `Rat` irreducible; concrete evaluation of
-- the embedded scoring pipeline (for witnesses and counterexamples) needs it
-- to reduce.
set_option allowUnsafeReducibility true
attribute [local semireducible] Rat.add Rat.mul Rat.inv Rat.div Rat.sub

/-! ## Python string primitives -/

/-- `str.lower` restricted to the character repertoire used by the program:
ASCII letters, the Latin-1 letter block (`À`–`Þ` except `×`), `Œ` and `Ÿ`.
All other codepoints (in particular the Arabic block) are unchanged, as in
Python. -/
def pyLower (c : Char) : Char :=
  let o := c.toNat
  if 0x41 ≤ o ∧ o ≤ 0x5A then Char.ofNat (o + 32)
  else if 0xC0 ≤ o ∧ o ≤ 0xDE ∧ o ≠ 0xD7 then Char.ofNat (o + 32)
  else if o = 0x152 then Char.ofNat 0x153
  else if o = 0x178 then Char.ofNat 0xFF
  else c

/-- Lower-case a whole string. -/
def lowerL (s : List Char) : List Char := s.map pyLower

/-- Python regex `\s` / `str.split()` whitespace, for the codepoints the
program can meet (ASCII whitespace, the C1 separators, NEL, NBSP). -/
def isPySpace (c : Char) : Bool :=
  let o := c.toNat
  (o = 0x20) || (0x9 ≤ o && o ≤ 0xD) || (0x1C ≤ o && o ≤ 0x1F) || (o = 0x85) || (o = 0xA0)

/-- Python regex `\w` (Unicode word character) restricted to the repertoire
used by the program: ASCII alphanumerics and underscore, Latin-1 letters,
`Œ œ Ÿ`, and the letters, combining marks and digits of the Arabic and
Arabic-Supplement blocks. -/
def isWordChar (c : Char) : Bool :=
  let o := c.toNat
  (0x30 ≤ o && o ≤ 0x39) || (0x41 ≤ o && o ≤ 0x5A) || (0x61 ≤ o && o ≤ 0x7A) || (o = 0x5F) ||
  (0xC0 ≤ o && o ≤ 0xFF && o ≠ 0xD7 && o ≠ 0xF7) ||
  (o = 0x152) || (o = 0x153) || (o = 0x178) ||
  (0x620 ≤ o && o ≤ 0x64A) || (0x64B ≤ o && o ≤ 0x65F) || (0x660 ≤ o && o ≤ 0x669) ||
  (0x66E ≤ o && o ≤ 0x6D3) || (0x6D5 ≤ o && o ≤ 0x6DC) || (0x6DF ≤ o && o ≤ 0x6E8) ||
  (0x6EA ≤ o && o ≤ 0x6FF) || (0x750 ≤ o && o ≤ 0x77F)

/-- Membership of a codepoint in the three Arabic-script ranges counted by
`detect_language`: `؀-ۿ`, `ݐ-ݿ`, `ࢠ-ࣿ`. -/
def isArabicChar (c : Char) : Bool :=
  let o := c.toNat
  (0x600 ≤ o && o ≤ 0x6FF) || (0x750 ≤ o && o ≤ 0x77F) || (0x8A0 ≤ o && o ≤ 0x8FF)

/-- Membership of a codepoint in the single range `؀-ۿ` kept by the
preprocessing regex of `FAQMatcher._preprocess`. -/
def isArabicBlock (c : Char) : Bool :=
  let o := c.toNat
  0x600 ≤ o && o ≤ 0x6FF

/-- `str.split()` with no argument: split on runs of whitespace, dropping
empty fields.  `acc` accumulates the current field in reverse. -/
def splitWSAux (acc : List Char) : List Char → List (List Char)
  | [] => if acc.isEmpty then [] else [acc.reverse]
  | c :: rest =>
    if isPySpace c then
      if acc.isEmpty then splitWSAux [] rest else acc.reverse :: splitWSAux [] rest
    else splitWSAux (c :: acc) rest

/-- `str.split()` (whitespace split, empty fields dropped). -/
def splitWS (s : List Char) : List (List Char) := splitWSAux [] s

/-- The maximal runs of word characters of a string: exactly the candidate
matches of a `\b(w1|w2|...)\b` alternation of word-character-only
alternatives, as used by the French-lexicon regex of `detect_language`. -/
def wordRunsAux (acc : List Char) : List Char → List (List Char)
  | [] => if acc.isEmpty then [] else [acc.reverse]
  | c :: rest =>
    if isWordChar c then wordRunsAux (c :: acc) rest
    else if acc.isEmpty then wordRunsAux [] rest else acc.reverse :: wordRunsAux [] rest

/-- Maximal word-character runs of a string. -/
def wordRuns (s : List Char) : List (List Char) := wordRunsAux [] s

/-- Python substring test `pat in s`. -/
def isSub (pat : List Char) : List Char → Bool
  | [] => pat.isEmpty
  | c :: rest => pat.isPrefixOf (c :: rest) || isSub pat rest

/-- `' '.join ∘ split()`-style joining of fields with single spaces. -/
def joinSpace : List (List Char) → List Char
  | [] => []
  | [w] => w
  | w :: ws => w ++ ' ' :: joinSpace ws

/-- Python `s.replace(pat, rep)` on codepoint lists: scan left to right,
replacing each non-overlapping occurrence of `pat`, never rescanning the
replacement text.  (Python's behaviour for an empty pattern—interleaving the
replacement everywhere—is not modelled; every pattern used by the program is a
nonempty `{token}` literal.)  The recursion is driven by a fuel argument so
that it evaluates structurally; each step consumes at least one character, so
`s.length` fuel always suffices (`replaceListF_fuel`, `replaceList_cons`). -/
def replaceListF (pat rep : List Char) : Nat → List Char → List Char
  | _, [] => []
  | 0, s => s
  | fuel + 1, c :: rest =>
    if pat ≠ [] ∧ pat.isPrefixOf (c :: rest) then
      rep ++ replaceListF pat rep fuel ((c :: rest).drop pat.length)
    else
      c :: replaceListF pat rep fuel rest

/-- See `replaceListF`. -/
def replaceList (pat rep s : List Char) : List Char := replaceListF pat rep s.length s

/-- The fuel does not matter once it covers the length. -/
theorem replaceListF_fuel (pat rep : List Char) :
    ∀ (f1 : Nat), ∀ (f2 : Nat) (s : List Char), s.length ≤ f1 → s.length ≤ f2 →
    replaceListF pat rep f1 s = replaceListF pat rep f2 s := by
  intro f1
  induction f1 with
  | zero =>
    intro f2 s h1 _
    rw [List.length_eq_zero.mp (Nat.le_zero.mp h1)]
    cases f2 <;> rfl
  | succ f1 ih =>
    intro f2 s h1 h2
    cases s with
    | nil => cases f2 <;> rfl
    | cons c rest =>
      simp only [List.length_cons] at h1 h2
      cases f2 with
      | zero => omega
      | succ g =>
        show (if pat ≠ [] ∧ pat.isPrefixOf (c :: rest) then
            rep ++ replaceListF pat rep f1 ((c :: rest).drop pat.length)
          else c :: replaceListF pat rep f1 rest)
          = (if pat ≠ [] ∧ pat.isPrefixOf (c :: rest) then
            rep ++ replaceListF pat rep g ((c :: rest).drop pat.length)
          else c :: replaceListF pat rep g rest)
        by_cases hc : pat ≠ [] ∧ pat.isPrefixOf (c :: rest)
        · have hp : 0 < pat.length := List.length_pos.mpr hc.1
          rw [if_pos hc, if_pos hc,
            ih g ((c :: rest).drop pat.length)
              (by simp only [List.length_drop, List.length_cons]; omega)
              (by simp only [List.length_drop, List.length_cons]; omega)]
        · rw [if_neg hc, if_neg hc, ih g rest (by omega) (by omega)]

/-- The single-step unfolding of `replaceList` on a nonempty string. -/
theorem replaceList_cons (pat rep : List Char) (c : Char) (rest : List Char) :
    replaceList pat rep (c :: rest) =
      if pat ≠ [] ∧ pat.isPrefixOf (c :: rest) then
        rep ++ replaceList pat rep ((c :: rest).drop pat.length)
      else
        c :: replaceList pat rep rest := by
  show replaceListF pat rep (rest.length + 1) (c :: rest) = _
  rw [show replaceListF pat rep (rest.length + 1) (c :: rest)
      = (if pat ≠ [] ∧ pat.isPrefixOf (c :: rest) then
          rep ++ replaceListF pat rep rest.length ((c :: rest).drop pat.length)
        else c :: replaceListF pat rep rest.length rest) from rfl]
  by_cases hc : pat ≠ [] ∧ pat.isPrefixOf (c :: rest)
  · have hp : 0 < pat.length := List.length_pos.mpr hc.1
    rw [if_pos hc, if_pos hc,
      replaceListF_fuel pat rep rest.length ((c :: rest).drop pat.length).length _
        (by simp only [List.length_drop, List.length_cons]; omega) (Nat.le_refl _)]
    rfl
  · rw [if_neg hc, if_neg hc,
      replaceListF_fuel pat rep rest.length rest.length rest (Nat.le_refl _) (Nat.le_refl _)]
    rfl

/-- Python `s.split(sep)[-1]` for a single-character separator: the text after
the last occurrence of `sep` (the whole string when `sep` is absent). -/
def afterLastChar (sep : Char) (s : List Char) : List Char :=
  ((s.reverse.takeWhile (· ≠ sep)).reverse)

/-! ## `difflib.SequenceMatcher` (stdlib), with `isjunk = None`, `autojunk = True` -/

/-- Ascending list of the indices at which `c` occurs in `b`
(`SequenceMatcher.__chain_b`'s `b2j` before junk removal). -/
def charPositions (b : List Char) (c : Char) : List Nat :=
  (b.enum.filter (fun p => p.2 = c)).map (fun p => p.1)

/-- `b2j` lookup after autojunk: when `len(b) >= 200`, characters occurring
more than `len(b) // 100 + 1` times are "popular" and dropped from the index.
With `isjunk = None` there is no other junk. -/
def b2jGet (b : List Char) (c : Char) : List Nat :=
  let idx := charPositions b c
  if 200 ≤ b.length ∧ b.length / 100 + 1 < idx.length then [] else idx

/-- State of the `find_longest_match` scan: the map `j2len` (as a function,
zero outside its support) and the current best block `(besti, bestj, size)`. -/
structure FLMState where
  j2len : Nat → Nat
  besti : Nat
  bestj : Nat
  bestsize : Nat

/-- Inner loop of `find_longest_match` for one position `i` of `a`: walk the
index list of `a[i]` in `b` (ascending; entries `< blo` are skipped and the
walk stops before `bhi`), building `newj2len` and updating the best block. -/
def flmStep (blo bhi i : Nat) (js : List Nat) (st : FLMState) : FLMState :=
  let js := (js.takeWhile (· < bhi)).filter (blo ≤ ·)
  js.foldl
    (fun acc j =>
      let k := (if j = 0 then 0 else st.j2len (j - 1)) + 1
      let new := fun x => if x = j then k else acc.j2len x
      if st.bestsize < k then ⟨new, i + 1 - k, j + 1 - k, k⟩
      else { acc with j2len := new })
    { st with j2len := fun _ => 0 }

/-- Extension of the best block to the left over equal characters
(`while besti > alo and bestj > blo and a[besti-1] == b[bestj-1]`); with
`isjunk = None` the junk guard is vacuous.  `fuel` bounds the walk. -/
def flmExtendLeft (a b : List Char) (alo blo : Nat) :
    Nat → Nat × Nat × Nat → Nat × Nat × Nat
  | 0, st => st
  | fuel + 1, (besti, bestj, bestsize) =>
    if alo < besti ∧ blo < bestj ∧ a.getD (besti - 1) ' ' = b.getD (bestj - 1) ' ' then
      flmExtendLeft a b alo blo fuel (besti - 1, bestj - 1, bestsize + 1)
    else (besti, bestj, bestsize)

/-- Extension of the best block to the right over equal characters. -/
def flmExtendRight (a b : List Char) (ahi bhi : Nat) :
    Nat → Nat × Nat × Nat → Nat × Nat × Nat
  | 0, st => st
  | fuel + 1, (besti, bestj, bestsize) =>
    if besti + bestsize < ahi ∧ bestj + bestsize < bhi ∧
        a.getD (besti + bestsize) ' ' = b.getD (bestj + bestsize) ' ' then
      flmExtendRight a b ahi bhi fuel (besti, bestj, bestsize + 1)
    else (besti, bestj, bestsize)

/-- `SequenceMatcher.find_longest_match(alo, ahi, blo, bhi)`: the longest
matching block of `a[alo:ahi]` and `b[blo:bhi]`, ties resolved to the
earliest position in `a`, then in `b`.  (The two junk-extension loops of the
stdlib are omitted: with `isjunk = None` the junk set is empty and they never
run.) -/
def findLongestMatch (a b : List Char) (alo ahi blo bhi : Nat) : Nat × Nat × Nat :=
  let st := (List.range' alo (ahi - alo)).foldl
    (fun st i => flmStep blo bhi i (b2jGet b (a.getD i ' ')) st)
    ⟨fun _ => 0, alo, blo, 0⟩
  let best := flmExtendLeft a b alo blo st.bestj (st.besti, st.bestj, st.bestsize)
  flmExtendRight a b ahi bhi (ahi + bhi) best

/-- Total number of matched characters over all matching blocks
(`get_matching_blocks` recursion; only the total is needed for `ratio`).
`fuel` bounds the recursion depth, which is at most `ahi + bhi`. -/
def matchedTotal (a b : List Char) : Nat → Nat → Nat → Nat → Nat → Nat
  | 0, _, _, _, _ => 0
  | fuel + 1, alo, ahi, blo, bhi =>
    let (i, j, k) := findLongestMatch a b alo ahi blo bhi
    if k = 0 then 0
    else matchedTotal a b fuel alo i blo j + k + matchedTotal a b fuel (i + k) ahi (j + k) bhi

/-- `SequenceMatcher(None, a, b).ratio()`: `2 * M / T` where `M` is the total
matched size and `T` the combined length; `1.0` when both strings are empty
(stdlib `_calculate_ratio`). -/
def ratioOf (a b : List Char) : ℚ :=
  let T := a.length + b.length
  if T = 0 then 1
  else (2 * (matchedTotal a b (T + 1) 0 a.length 0 b.length) : ℚ) / T

/-! ## Rounding: Python `round(x, 2)` on exact rationals -/

/-- `min` / `max` on rationals, written with an explicit comparison so that
they evaluate inside the kernel. -/
def pyMin (a b : ℚ) : ℚ := if a ≤ b then a else b

/-- See `pyMin`. -/
def pyMax (a b : ℚ) : ℚ := if a ≤ b then b else a

/-- Round a rational to the nearest integer, halves to the even neighbour
(Python's `round`). -/
def roundHalfEven (q : ℚ) : ℤ :=
  if q - q.floor < 1/2 then q.floor
  else if 1/2 < q - q.floor then q.floor + 1
  else if q.floor % 2 = 0 then q.floor else q.floor + 1

/-- Python `round(x, 2)` as an exact operation on rationals. -/
def pyRound2 (q : ℚ) : ℚ := (roundHalfEven (q * 100) : ℚ) / 100

/-! ## `detect_language` (faq_service.py) -/

/-- The fixed French function-word lexicon of `detect_language` (the
duplicated alternatives `comment` and `je` of the source regex are harmless
for counting and are kept once). -/
def frenchLexicon : List (List Char) :=
  ["je", "tu", "il", "elle", "nous", "vous", "ils", "elles", "le", "la", "les",
   "un", "une", "des", "du", "de", "et", "est", "en", "au", "aux", "avec",
   "pour", "sur", "dans", "par", "que", "qui", "quoi", "comment", "quand",
   "où", "quel", "quelle", "bonjour", "salut", "merci", "oui", "non",
   "pourquoi", "inscription", "frais", "cours", "examens", "puis", "mon",
   "ma", "mes", "ses"].map String.data

/-- Number of Arabic-script codepoints of a string
(`re.findall(r'[؀-ۿݐ-ݿࢠ-ࣿ]', text)`). -/
def arabicCharCount (s : List Char) : Nat := (s.filter isArabicChar).length

/-- Number of French diacritic codepoints
(`re.findall(r'[àâçéèêëîïôùûüÿœæÀÂÇÉÈÊËÎÏÔÙÛÜŸŒÆ]', text)`). -/
def frenchMarkerCount (s : List Char) : Nat :=
  (s.filter (fun c => c ∈
    ['à','â','ç','é','è','ê','ë','î','ï','ô','ù','û','ü','ÿ','œ','æ',
     'À','Â','Ç','É','È','Ê','Ë','Î','Ï','Ô','Ù','Û','Ü','Ÿ','Œ','Æ'])).length

/-- Number of matches of the `\b(...)\b` French-lexicon alternation against
the lower-cased text: since every alternative consists of word characters
only, the matches are exactly the maximal word-character runs that belong to
the lexicon. -/
def frenchWordCount (s : List Char) : Nat :=
  ((wordRuns (lowerL s)).filter (fun w => frenchLexicon.contains w)).length

/-- `detect_language(text)`: `'ar'` when more than one Arabic-script
codepoint, else `'fr'` when the marker density passes `0.15` or at least two
lexicon hits, else `'en'`. -/
def detect_language (text : String) : String :=
  let s := text.data
  let arabic_chars := arabicCharCount s
  let french_markers := frenchMarkerCount s
  let french_words := frenchWordCount s
  let total_words := Nat.max (splitWS s).length 1
  if 1 < arabic_chars then "ar"
  else if (3 : ℚ)/20 < ((french_markers + french_words : ℕ) : ℚ) / (total_words : ℚ)
          ∨ 2 ≤ french_words then "fr"
  else "en"

/-! ## Placeholder resolver (`build_placeholders`, `fill`) -/

/-- Institution snapshot.  Modelled from the spec: `models/university.py` is
not part of the sources at hand; its field set is taken from the directory
interface of the spec ({id, name, localized names, city, website, email,
phone, address, is_active}) and from the attributes that
`build_placeholders` and `telegram_bot.py` read.  `name` is non-nullable
(as for the sibling `Faculty`/`Department` models); the other text fields are
nullable. -/
structure University where
  id : Nat
  name : String
  name_ar : Option String
  city : Option String
  website : Option String
  email : Option String
  phone : Option String
  address : Option String
  is_active : Bool
deriving DecidableEq

/-- Python `x or default` for an optional string field (`None` and `""` are
both falsy). -/
def pyOr (x : Option String) (d : String) : String :=
  match x with
  | none => d
  | some s => if s = "" then d else s

/-- Python `s or default` for a string (`""` is falsy). -/
def pyOrS (s d : String) : String := if s = "" then d else s

/-- `build_placeholders(university)`: the token→value map, in the insertion
order of the source dict. -/
def build_placeholders (university : Option University) : List (String × String) :=
  match university with
  | none =>
    [("university_name", "your university"),
     ("university_name_ar", "جامعتك"),
     ("university_name_fr", "votre université"),
     ("city", "your city"),
     ("city_ar", "مدينتك"),
     ("city_fr", "votre ville"),
     ("portal_url", "your student portal"),
     ("website", "the university website"),
     ("email_general", "info@university.dz"),
     ("email_registrar", "registrar@university.dz"),
     ("email_finance", "finance@university.dz"),
     ("email_it", "itsupport@university.dz"),
     ("email_student", "studentaffairs@university.dz"),
     ("email_financial_aid", "financialaid@university.dz"),
     ("email_housing", "housing@university.dz"),
     ("email_library", "library@university.dz"),
     ("email_academic", "academic@university.dz"),
     ("phone_main", "the university main number"),
     ("address", "the university campus")]
  | some u =>
    let name := pyOrS u.name "your university"
    let name_ar := pyOr u.name_ar "جامعتك"
    let city := pyOr u.city ""
    let website := pyOr u.website "the university website"
    let email := pyOr u.email "info@university.dz"
    let phone := pyOr u.phone ""
    let domain := if email.data.contains '@'
      then (afterLastChar '@' email.data).asString else "university.dz"
    let sub := fun (pre : String) => pre ++ "@" ++ domain
    let portal := pyOrS website "the student portal"
    [("university_name", name),
     ("university_name_ar", name_ar),
     ("university_name_fr", name),
     ("city", city),
     ("city_ar", city),
     ("city_fr", city),
     ("portal_url", portal),
     ("website", website),
     ("email_general", email),
     ("email_registrar", sub "registrar"),
     ("email_finance", sub "finance"),
     ("email_it", sub "itsupport"),
     ("email_student", sub "studentaffairs"),
     ("email_financial_aid", sub "financialaid"),
     ("email_housing", sub "housing"),
     ("email_library", sub "library"),
     ("email_academic", sub "academic"),
     ("phone_main", pyOrS phone "the university main number"),
     ("address", pyOr u.address ("Campus of " ++ name ++ ", " ++ city))]

/-- The brace-delimited occurrence of a token name. -/
def tokenOf (k : String) : List Char := '{' :: k.data ++ ['}']

/-- `fill(template, ph)`: replace every `{key}` occurrence by its value, one
key after the other in map order. -/
def fill (template : String) (ph : List (String × String)) : String :=
  (ph.foldl (fun t kv => replaceList (tokenOf kv.1) kv.2.data t) template.data).asString

/-! ## The FAQ catalog -/

/-- One catalog entry (`id`, `category`, `question`, the three per-language
answer templates, `keywords`, `variants`). -/
structure FAQ where
  id : Nat
  category : String
  question : String
  answer_en : String
  answer_ar : String
  answer_fr : String
  keywords : List String
  variants : List String
deriving DecidableEq
/-- Entry 1 of the source catalog list in faq_service.py. -/
def faqEntry1 : FAQ := ⟨1, "greeting", "Hello / Hi / Greetings", "Hello! Welcome to \x7buniversity_name\x7d Chatbot. I\x27m here to help you with:\n- Course registration and enrollment\n- Tuition fees and payments\n- Academic information and grades\n- Campus facilities and services\n- Exams and schedules\n- Student services\n\nHow can I assist you today?", "مرحباً! أهلاً بك في شات بوت \x7buniversity_name_ar\x7d. أنا هنا لمساعدتك في:\n- التسجيل في المقررات\n- الرسوم الدراسية والمدفوعات\n- المعلومات الأكاديمية والدرجات\n- مرافق الحرم الجامعي والخدمات\n- الامتحانات والجداول الزمنية\n- خدمات الطلاب\n\nكيف يمكنني مساعدتك اليوم؟", "Bonjour! Bienvenue sur le Chatbot de \x7buniversity_name_fr\x7d. Je suis là pour vous aider avec:\n- L\x27inscription aux cours\n- Les frais de scolarité et paiements\n- Les informations académiques et les notes\n- Les installations du campus et services\n- Les examens et les emplois du temps\n- Les services aux étudiants\n\nComment puis-je vous aider aujourd\x27hui?", ["hello", "hi", "hey", "greetings", "salut", "bonjour", "salam", "مرحبا", "السلام عليكم", "أهلا", "هلا"], ["hello", "hi there", "hey", "good morning", "bonjour", "salut", "مرحبا", "السلام عليكم"]⟩

/-- Entry 2 of the source catalog list in faq_service.py. -/
def faqEntry2 : FAQ := ⟨2, "greeting", "How are you?", "I\x27m functioning well, thank you! I\x27m ready to help you with any questions about \x7buniversity_name\x7d. What would you like to know?", "أنا بخير، شكراً لسؤالك! أنا جاهز لمساعدتك في أي سؤال يتعلق بـ\x7buniversity_name_ar\x7d. ماذا تريد أن تعرف؟", "Je fonctionne très bien, merci! Je suis prêt à vous aider pour toutes vos questions sur \x7buniversity_name_fr\x7d. Que souhaitez-vous savoir?", ["how are you", "comment allez-vous", "ça va", "كيف حالك", "كيفك", "comment vas-tu"], ["how are you", "how are you doing", "comment vas-tu", "كيف حالك"]⟩

/-- Entry 3 of the source catalog list in faq_service.py. -/
def faqEntry3 : FAQ := ⟨3, "greeting", "Thank you / Thanks", "You\x27re very welcome! I\x27m glad I could help. Feel free to ask anytime. Have a great day!", "على الرحب والسعة! يسعدني أنني استطعت المساعدة. لا تتردد في السؤال في أي وقت. أتمنى لك يوماً رائعاً!", "De rien! Je suis ravi d\x27avoir pu vous aider. N\x27hésitez pas à demander à tout moment. Bonne journée!", ["thank", "thanks", "merci", "شكرا", "شكراً", "شكرًا"], ["thank you", "thanks", "merci", "شكرا", "شكراً جزيلاً"]⟩

/-- Entry 4 of the source catalog list in faq_service.py. -/
def faqEntry4 : FAQ := ⟨4, "greeting", "Goodbye / See you", "Goodbye! It was nice helping you today. Come back anytime you have questions about \x7buniversity_name\x7d. Take care!", "وداعاً! كان من دواعي سروري مساعدتك. عُد في أي وقت لديك أسئلة حول \x7buniversity_name_ar\x7d. اعتنِ بنفسك!", "Au revoir! C\x27était un plaisir de vous aider. Revenez à tout moment pour \x7buniversity_name_fr\x7d. Prenez soin de vous!", ["goodbye", "bye", "see you", "au revoir", "مع السلامة", "وداعا"], ["goodbye", "bye", "see you later", "au revoir", "مع السلامة"]⟩

/-- Entry 5 of the source catalog list in faq_service.py. -/
def faqEntry5 : FAQ := ⟨5, "help", "What can you help me with?", "I can help you with many aspects of \x7buniversity_name\x7d:\n\n📚 **Academic:** Course registration, grading system, attendance policies\n💰 **Financial:** Tuition fees, payment methods, scholarships\n🏢 **Campus Life:** Library, gym, cafeteria, student housing\n📝 **Student Services:** Student ID, portal access, admin procedures\n📅 **Important Dates:** Registration deadlines, exam periods\n\nJust ask me anything!", "يمكنني مساعدتك في كثير من جوانب \x7buniversity_name_ar\x7d:\n\n📚 **الأكاديمي:** التسجيل في المقررات، نظام التقييم، سياسات الحضور\n💰 **المالي:** الرسوم الدراسية، طرق الدفع، المنح الدراسية\n🏢 **الحياة الجامعية:** المكتبة، قاعة الرياضة، المطعم، السكن الجامعي\n📝 **خدمات الطلاب:** بطاقة الطالب، الوصول إلى البوابة، الإجراءات الإدارية\n📅 **مواعيد هامة:** مواعيد التسجيل، فترات الامتحانات\n\nاسألني أي شيء!", "Je peux vous aider avec de nombreux aspects de \x7buniversity_name_fr\x7d:\n\n📚 **Académique:** Inscription aux cours, système de notation, politiques de présence\n💰 **Financier:** Frais de scolarité, modes de paiement, bourses\n🏢 **Vie du campus:** Bibliothèque, gymnase, cafétéria, logement étudiant\n📝 **Services étudiants:** Carte étudiant, accès au portail, procédures administratives\n📅 **Dates importantes:** Dates d\x27inscription, périodes d\x27examens\n\nPosez-moi n\x27importe quelle question!", ["help", "what can you do", "aide", "مساعدة", "ماذا تفعل", "ماذا تستطيع"], ["what can you help with", "what do you do", "how can you help", "aide", "مساعدة"]⟩

/-- Entry 6 of the source catalog list in faq_service.py. -/
def faqEntry6 : FAQ := ⟨6, "registration", "How do I register for courses?", "**Course Registration Process:**\n\n1. Log into the student portal: \x7bportal_url\x7d\n2. Navigate to \x27Course Registration\x27\n3. Select your desired courses\n4. Check for time conflicts\n5. Submit your registration\n6. Pay registration fees within the deadline\n\nRegistration opens 2 weeks before each semester. Limited seats – register early!\n\n📧 \x7bemail_registrar\x7d", "**خطوات التسجيل في المقررات:**\n\n1. سجّل الدخول على بوابة الطلاب: \x7bportal_url\x7d\n2. انتقل إلى قسم \x27تسجيل المقررات\x27\n3. اختر المقررات المطلوبة\n4. تحقق من التعارض في الجداول\n5. أرسل طلب التسجيل\n6. ادفع رسوم التسجيل قبل الموعد النهائي\n\nيفتح التسجيل قبل أسبوعين من كل فصل. الأماكن محدودة – سجّل مبكراً!\n\n📧 \x7bemail_registrar\x7d", "**Processus d\x27inscription aux cours:**\n\n1. Connectez-vous au portail étudiant: \x7bportal_url\x7d\n2. Allez dans \x27Inscription aux cours\x27\n3. Sélectionnez vos cours\n4. Vérifiez les conflits d\x27horaires\n5. Soumettez votre inscription\n6. Payez les frais dans le délai imparti\n\nL\x27inscription ouvre 2 semaines avant chaque semestre. Places limitées – inscrivez-vous tôt!\n\n📧 \x7bemail_registrar\x7d", ["register", "registration", "enroll", "enrollment", "course", "signup", "inscription", "inscrire", "cours", "تسجيل", "مادة", "كيف أسجل", "كيف اسجل"], ["how to register", "registration process", "enroll in courses", "comment s\x27inscrire", "comment puis-je m inscrire", "كيف أسجل", "طريقة التسجيل"]⟩

/-- Entry 7 of the source catalog list in faq_service.py. -/
def faqEntry7 : FAQ := ⟨7, "registration", "What are the registration deadlines?", "**Registration Deadlines:**\n\n🍂 Fall: Early registration → Regular → Late registration (with late fee)\n🌸 Spring: Early registration → Regular → Late registration (with late fee)\n☀️ Summer: Short registration window\n\n⚠️ Check the official academic calendar on \x7bportal_url\x7d for exact dates.\nLate registration incurs additional fees. No registration after late period ends!", "**مواعيد التسجيل:**\n\n🍂 الخريف: تسجيل مبكر ← عادي ← متأخر (برسوم إضافية)\n🌸 الربيع: تسجيل مبكر ← عادي ← متأخر (برسوم إضافية)\n☀️ الصيف: فترة تسجيل قصيرة\n\n⚠️ راجع التقويم الأكاديمي الرسمي على \x7bportal_url\x7d للمواعيد الدقيقة.\nالتسجيل المتأخر يستلزم رسوماً إضافية. لا يُقبل أي تسجيل بعد انتهاء الفترة!", "**Dates limites d\x27inscription:**\n\n🍂 Automne: Inscription anticipée → Normale → Tardive (avec frais supplémentaires)\n🌸 Printemps: Inscription anticipée → Normale → Tardive (avec frais supplémentaires)\n☀️ Été: Courte période d\x27inscription\n\n⚠️ Consultez le calendrier académique officiel sur \x7bportal_url\x7d pour les dates exactes.\nL\x27inscription tardive entraîne des frais supplémentaires. Aucune inscription après la période tardive!", ["deadline", "last day", "registration date", "when", "due date", "date limite", "موعد", "آخر موعد", "متى التسجيل"], ["registration deadline", "when to register", "date limite d\x27inscription", "موعد التسجيل"]⟩

/-- Entry 8 of the source catalog list in faq_service.py. -/
def faqEntry8 : FAQ := ⟨8, "registration", "Can I drop a course after registration?", "**Course Drop Policy:**\n\n✅ Weeks 1-2 (Add/Drop Period): Full refund, no transcript record\n⚠️ Weeks 3-6 (Withdrawal): Partial refund, \x27W\x27 on transcript (no GPA impact)\n❌ After Week 6: No refund, \x27WF\x27 on transcript (affects GPA)\n\nHow to Drop: via the student portal (\x7bportal_url\x7d) or the Registrar\x27s Office.\n📧 \x7bemail_registrar\x7d", "**سياسة حذف المقررات:**\n\n✅ الأسبوعان 1-2: استرداد كامل، بدون سجل في كشف الدرجات\n⚠️ الأسابيع 3-6: استرداد جزئي، يظهر \x27W\x27 في كشف الدرجات (لا يؤثر على المعدل)\n❌ بعد الأسبوع 6: لا استرداد، يظهر \x27WF\x27 في كشف الدرجات (يؤثر على المعدل)\n\nطريقة الحذف: عبر بوابة الطالب (\x7bportal_url\x7d) أو مكتب التسجيل.\n📧 \x7bemail_registrar\x7d", "**Politique d\x27abandon de cours:**\n\n✅ Semaines 1-2: Remboursement total, aucune mention sur le relevé\n⚠️ Semaines 3-6: Remboursement partiel, \x27W\x27 sur le relevé (pas d\x27impact sur la moyenne)\n❌ Après la semaine 6: Pas de remboursement, \x27WF\x27 sur le relevé (affecte la moyenne)\n\nComment abandonner: via le portail étudiant (\x7bportal_url\x7d) ou le Bureau du Registraire.\n📧 \x7bemail_registrar\x7d", ["drop", "withdraw", "remove course", "cancel registration", "annuler", "حذف المادة", "الانسحاب", "حذف مقرر"], ["drop a course", "withdraw from course", "annuler un cours", "حذف مادة"]⟩

/-- Entry 9 of the source catalog list in faq_service.py. -/
def faqEntry9 : FAQ := ⟨9, "tuition", "How much are the tuition fees?", "**Tuition Fees (Per Semester):**\n\n🎓 Undergraduate: Base tuition + applicable lab fees\n🎓 Master\x27s: Base tuition + research fees\n🎓 PhD: Base tuition + research & lab access fees\n\nAdditional fees may include: registration, library access, sports facilities, and student services.\n\n💡 For exact amounts, check \x7bportal_url\x7d or contact the Finance Office: 📧 \x7bemail_finance\x7d\nScholarships are available – ask about financial aid!", "**الرسوم الدراسية (لكل فصل):**\n\n🎓 الليسانس: رسوم أساسية + رسوم مختبر (إن وجدت)\n🎓 الماستر: رسوم أساسية + رسوم بحثية\n🎓 الدكتوراه: رسوم أساسية + رسوم مختبر وبحث\n\nقد تشمل الرسوم الإضافية: التسجيل، المكتبة، الرياضة، والخدمات الطلابية.\n\n💡 للمبالغ الدقيقة، راجع \x7bportal_url\x7d أو تواصل مع الشؤون المالية: 📧 \x7bemail_finance\x7d\nتتوفر منح دراسية – اسأل عن المساعدات المالية!", "**Frais de scolarité (par semestre):**\n\n🎓 Licence: Frais de base + frais de laboratoire (si applicable)\n🎓 Master: Frais de base + frais de recherche\n🎓 Doctorat: Frais de base + accès labo et recherche\n\nDes frais supplémentaires peuvent inclure: inscription, bibliothèque, sports, et services étudiants.\n\n💡 Pour les montants exacts, consultez \x7bportal_url\x7d ou contactez le Bureau des finances: 📧 \x7bemail_finance\x7d\nDes bourses sont disponibles – renseignez-vous sur l\x27aide financière!", ["tuition", "fees", "cost", "price", "how much", "money", "frais", "scolarite", "scolarité", "رسوم", "المصاريف", "كم الرسوم", "كم التكلفة", "الرسوم الدراسية", "ما هي الرسوم"], ["tuition fees", "how much does it cost", "frais de scolarité", "quels sont les frais", "كم الرسوم", "الرسوم الدراسية"]⟩

/-- Entry 10 of the source catalog list in faq_service.py. -/
def faqEntry10 : FAQ := ⟨10, "tuition", "What payment methods are accepted?", "**Accepted Payment Methods:**\n\n🏦 Bank Transfer: to the university\x27s official bank account (reference: your Student ID)\n💵 Cash: at the Finance Office on campus (office hours: Sun–Thu 8AM–4PM)\n📮 Postal account (CCP) if available\n💳 Online payment via \x7bportal_url\x7d/payment (CIB, EDAHABIA, Visa, Mastercard)\n\n📧 Always send your payment receipt to: \x7bemail_finance\x7d\n☎ Finance Office: \x7bphone_main\x7d", "**طرق الدفع المقبولة:**\n\n🏦 تحويل بنكي: إلى الحساب الرسمي للجامعة (المرجع: رقم الطالب)\n💵 نقداً: في مكتب الشؤون المالية بالحرم الجامعي (أوقات العمل: الأحد–الخميس 8ص–4م)\n📮 حساب بريدي (CCP) إن كان متاحاً\n💳 دفع إلكتروني عبر \x7bportal_url\x7d/payment (CIB، EDAHABIA، Visa، Mastercard)\n\n📧 أرسل دائماً إيصال الدفع إلى: \x7bemail_finance\x7d\n☎ الشؤون المالية: \x7bphone_main\x7d", "**Modes de paiement acceptés:**\n\n🏦 Virement bancaire: sur le compte officiel de l\x27université (réf: votre ID étudiant)\n💵 Espèces: au Bureau des finances sur le campus (Dim–Jeu 8h–16h)\n📮 Compte postal (CCP) si disponible\n💳 Paiement en ligne via \x7bportal_url\x7d/payment (CIB, EDAHABIA, Visa, Mastercard)\n\n📧 Envoyez toujours votre reçu à: \x7bemail_finance\x7d\n☎ Bureau des finances: \x7bphone_main\x7d", ["payment", "pay", "method", "transfer", "cash", "online", "credit card", "paiement", "طريقة الدفع", "كيف أدفع", "دفع"], ["how to pay", "payment methods", "modes de paiement", "كيف أدفع"]⟩

/-- Entry 11 of the source catalog list in faq_service.py. -/
def faqEntry11 : FAQ := ⟨11, "academic", "What is the grading system?", "**Algerian Grading Scale (0-20):**\n\n- 16-20: Excellent (Très Bien) → A\n- 14-15.99: Very Good (Bien) → B\n- 12-13.99: Good (Assez Bien) → C\n- 10-11.99: Satisfactory (Passable) → D\n- Below 10: Fail (Ajourné) → F\n\n**Minimum passing grade:** 10/20\n\n**Typical grade components:** Midterm ~30% | Final ~50% | Assignments ~15% | Attendance ~5%\n\nGrade appeals: usually within 5 days of grade publication. Contact \x7bemail_academic\x7d for details.", "**سلم التقييم الجزائري (0-20):**\n\n- 16-20: ممتاز (Très Bien) → A\n- 14-15.99: جيد جداً (Bien) → B\n- 12-13.99: جيد (Assez Bien) → C\n- 10-11.99: مقبول (Passable) → D\n- أقل من 10: راسب (Ajourné) → F\n\n**الحد الأدنى للنجاح:** 10/20\n\n**مكونات الدرجة المعتادة:** منتصف الفصل ~30% | نهائي ~50% | واجبات ~15% | حضور ~5%\n\nالتظلم على الدرجات: عادةً خلال 5 أيام من النشر. تواصل مع \x7bemail_academic\x7d للتفاصيل.", "**Barème de notation algérien (0-20):**\n\n- 16-20: Excellent (Très Bien) → A\n- 14-15.99: Très Bien (Bien) → B\n- 12-13.99: Bien (Assez Bien) → C\n- 10-11.99: Passable → D\n- Moins de 10: Ajourné (Échec) → F\n\n**Note minimale pour réussir:** 10/20\n\n**Répartition habituelle:** Partiel ~30% | Final ~50% | Devoirs ~15% | Présence ~5%\n\nRecours: généralement dans les 5 jours après la publication. Contactez \x7bemail_academic\x7d.", ["grade", "grading", "marks", "score", "gpa", "evaluation", "notation", "درجات", "تقييم", "نظام الدرجات", "النقطة"], ["grading system", "how grades work", "système de notation", "نظام التقييم"]⟩

/-- Entry 12 of the source catalog list in faq_service.py. -/
def faqEntry12 : FAQ := ⟨12, "academic", "How can I access my grades?", "**Accessing Your Grades:**\n\n💻 Online: \x7bportal_url\x7d → Academic Records → View Grades\n📧 You\x27ll receive an email notification when grades are posted\n🏢 In person: Registrar\x27s Office (Student ID required) – fee for official sealed copy\n\nGrades are typically posted within 1-2 weeks after exams.\n📧 IT issues: \x7bemail_it\x7d", "**طريقة الاطلاع على الدرجات:**\n\n💻 إلكترونياً: \x7bportal_url\x7d ← السجلات الأكاديمية ← عرض الدرجات\n📧 ستتلقى إشعاراً بالبريد الإلكتروني عند نشر الدرجات\n🏢 حضورياً: مكتب التسجيل (بطاقة الطالب مطلوبة) – رسوم للنسخة الرسمية المختومة\n\nتُنشر الدرجات عادةً خلال 1-2 أسبوع بعد الامتحانات.\n📧 مشاكل تقنية: \x7bemail_it\x7d", "**Accéder à vos notes:**\n\n💻 En ligne: \x7bportal_url\x7d → Dossier académique → Voir les notes\n📧 Vous recevrez un email de notification quand les notes sont disponibles\n🏢 En personne: Bureau du Registraire (carte étudiant requise) – frais pour copie officielle\n\nLes notes sont généralement publiées dans les 1-2 semaines après les examens.\n📧 Problèmes techniques: \x7bemail_it\x7d", ["access grades", "view grades", "check grades", "see results", "transcript", "consulter notes", "الاطلاع على النتائج", "أشوف درجاتي", "كيف أرى نتائجي"], ["how to see grades", "check my grades", "voir mes notes", "كيف أرى درجاتي"]⟩

/-- Entry 13 of the source catalog list in faq_service.py. -/
def faqEntry13 : FAQ := ⟨13, "academic", "What is the attendance policy?", "**Attendance Policy (Algerian universities):**\n\n✅ Minimum required attendance: 75% per course\n- First few absences: tolerated\n- Further absences: warning, then grade deductions\n- Exceeding 25% absence rate: Automatic failure\n\nExcused absences (medical certificate or official document) must be submitted within 3 days.\nTypically, 3 late arrivals (>15 min) count as 1 absence.\n\n📧 Contact \x7bemail_student\x7d for absence justification procedures.", "**سياسة الحضور (الجامعات الجزائرية):**\n\n✅ الحد الأدنى المطلوب: 75% لكل مقرر\n- الغيابات الأولى: متسامح بها\n- الغيابات الإضافية: تحذير ثم خصم من الدرجة\n- تجاوز 25% من الغيابات: رسوب تلقائي\n\nالغياب المبرر (شهادة طبية أو وثيقة رسمية) يجب تقديمه خلال 3 أيام.\nعادةً 3 تأخيرات (>15 دقيقة) = غياب واحد.\n\n📧 تواصل مع \x7bemail_student\x7d لإجراءات تبرير الغياب.", "**Politique de présence (universités algériennes):**\n\n✅ Présence minimale requise: 75% par cours\n- Premières absences: tolérées\n- Absences supplémentaires: avertissement puis déduction de points\n- Dépasser 25% d\x27absences: Échec automatique\n\nAbsences justifiées (certificat médical ou document officiel) à soumettre dans les 3 jours.\nEn général, 3 retards (>15 min) = 1 absence.\n\n📧 Contactez \x7bemail_student\x7d pour les procédures de justification d\x27absence.", ["attendance", "absence", "present", "miss class", "skip", "assiduité", "présence", "الحضور", "الغياب", "غياب"], ["attendance policy", "missing class", "politique de présence", "سياسة الحضور"]⟩

/-- Entry 14 of the source catalog list in faq_service.py. -/
def faqEntry14 : FAQ := ⟨14, "campus", "What facilities are available on campus?", "**Campus Facilities at \x7buniversity_name\x7d:**\n\n📚 Central Library: books, journals, e-resources, study rooms, free WiFi\n💻 Computer Labs: high-speed internet, software for all majors\n🏃 Sports Complex: gym, sports fields and courts\n🍽️ Student Cafeteria: subsidized meals\n🏥 Medical Clinic: basic healthcare, first aid\n🖨️ Printing Center: B&W and color printing\n🚗 Student parking (free with ID)\n\nFor details and opening hours, visit \x7bportal_url\x7d or check the campus map at reception.", "**مرافق الحرم الجامعي في \x7buniversity_name_ar\x7d:**\n\n📚 المكتبة المركزية: كتب، دوريات، موارد إلكترونية، قاعات دراسة، واي فاي مجاني\n💻 قاعات الكمبيوتر: إنترنت عالي السرعة، برامج لجميع التخصصات\n🏃 المجمع الرياضي: صالة رياضة، ملاعب رياضية\n🍽️ المطعم الجامعي: وجبات مدعومة\n🏥 العيادة الطبية: رعاية صحية أساسية، إسعافات أولية\n🖨️ مركز الطباعة: طباعة بالأبيض والأسود وملونة\n🚗 موقف سيارات مجاني ببطاقة الطالب\n\nللتفاصيل وأوقات العمل، زر \x7bportal_url\x7d أو تحقق من خريطة الحرم الجامعي.", "**Équipements du campus de \x7buniversity_name_fr\x7d:**\n\n📚 Bibliothèque centrale: livres, revues, ressources numériques, salles d\x27étude, WiFi gratuit\n💻 Salles informatiques: internet haut débit, logiciels pour toutes les filières\n🏃 Complexe sportif: salle de gym, terrains de sport\n🍽️ Cafétéria étudiante: repas subventionnés\n🏥 Clinique médicale: soins de base, premiers secours\n🖨️ Centre d\x27impression: impression N&B et couleur\n🚗 Parking étudiant gratuit avec carte\n\nPour les détails et horaires, consultez \x7bportal_url\x7d ou le plan du campus à la réception.", ["facilities", "campus", "library", "gym", "cafeteria", "sports", "مرافق", "مكتبة", "ملعب", "مطعم"], ["campus facilities", "what\x27s on campus", "installations du campus", "مرافق الجامعة"]⟩

/-- Entry 15 of the source catalog list in faq_service.py. -/
def faqEntry15 : FAQ := ⟨15, "campus", "What are the library hours?", "**Library Hours:**\n\n📅 Regular semester: Sun–Thu 8AM–8PM | Fri 8AM–12PM & 2PM–6PM | Sat 8AM–2PM\n📚 Exam period: extended hours (often until 10PM)\n🌙 Closed: national holidays; reduced hours during Ramadan\n💻 Digital library: 24/7 via \x7bportal_url\x7d\n\n📧 Library inquiries: \x7bemail_library\x7d", "**أوقات عمل المكتبة:**\n\n📅 الفصل الدراسي: الأحد–الخميس 8ص–8م | الجمعة 8ص–12م و2م–6م | السبت 8ص–2م\n📚 فترة الامتحانات: ساعات ممتدة (غالباً حتى 10م)\n🌙 مغلق: في العطل الوطنية؛ ساعات مختصرة خلال رمضان\n💻 المكتبة الرقمية: 24/7 عبر \x7bportal_url\x7d\n\n📧 استفسارات المكتبة: \x7bemail_library\x7d", "**Horaires de la bibliothèque:**\n\n📅 Semestre normal: Dim–Jeu 8h–20h | Ven 8h–12h & 14h–18h | Sam 8h–14h\n📚 Période d\x27examens: horaires étendus (souvent jusqu\x27à 22h)\n🌙 Fermée: jours fériés; horaires réduits pendant le Ramadan\n💻 Bibliothèque numérique: 24h/24 via \x7bportal_url\x7d\n\n📧 Renseignements bibliothèque: \x7bemail_library\x7d", ["library", "hours", "time", "open", "close", "schedule", "horaires", "bibliothèque", "ساعات المكتبة", "مكتبة"], ["library hours", "when is library open", "horaires de la bibliothèque", "أوقات المكتبة"]⟩

/-- Entry 16 of the source catalog list in faq_service.py. -/
def faqEntry16 : FAQ := ⟨16, "services", "How do I get a student ID card?", "**Student ID Card:**\n\n📋 Typically required: passport-size photo, registration confirmation, national ID, payment of card fee\n🏢 Apply at: the Student Services Office on campus\n⏰ Processing time: usually 3-7 business days\n\nLost card? Report immediately to the Student Services Office to get a replacement.\n⚠️ Your student ID is mandatory for exams, library access, and campus facilities!\n\n📧 \x7bemail_student\x7d", "**بطاقة الطالب:**\n\n📋 المطلوب عادةً: صورة شخصية، تأكيد التسجيل، بطاقة الهوية الوطنية، دفع رسوم البطاقة\n🏢 التقديم في: مكتب خدمات الطلاب بالحرم الجامعي\n⏰ مدة الإنجاز: عادةً 3-7 أيام عمل\n\nفقدت بطاقتك؟ أبلغ فوراً مكتب خدمات الطلاب للحصول على بدل ضائع.\n⚠️ بطاقة الطالب إلزامية للامتحانات والمكتبة ومرافق الجامعة!\n\n📧 \x7bemail_student\x7d", "**Carte étudiant:**\n\n📋 Généralement requis: photo d\x27identité, confirmation d\x27inscription, pièce d\x27identité nationale, paiement des frais de carte\n🏢 Demande à: le Bureau des services étudiants sur le campus\n⏰ Délai: généralement 3-7 jours ouvrables\n\nCarte perdue? Signalez immédiatement au Bureau des services étudiants pour obtenir un remplacement.\n⚠️ Votre carte étudiant est obligatoire pour les examens, la bibliothèque et les installations!\n\n📧 \x7bemail_student\x7d", ["student id", "card", "identification", "badge", "carte étudiant", "بطاقة الطالب", "بطاقة طالب"], ["get student card", "student id card", "obtenir carte étudiant", "الحصول على بطاقة الطالب"]⟩

/-- Entry 17 of the source catalog list in faq_service.py. -/
def faqEntry17 : FAQ := ⟨17, "services", "Is there student housing available?", "**Student Housing:**\n\n🏠 On-campus dormitories (résidence universitaire) are available at most Algerian universities.\n💰 Monthly fees vary by room type (shared or single).\n📋 Priority is typically given to: students from distant regions, international students, and scholarship recipients.\n\n**How to apply:** Submit your application via \x7bportal_url\x7d during the housing application period (usually before the start of each semester).\n\n📧 Housing inquiries: \x7bemail_housing\x7d", "**السكن الجامعي:**\n\n🏠 تتوفر مساكن جامعية (إقامة جامعية) في معظم الجامعات الجزائرية.\n💰 الرسوم الشهرية تختلف حسب نوع الغرفة (مشتركة أو فردية).\n📋 الأولوية عادةً لـ: الطلاب القادمين من مناطق بعيدة، الطلاب الأجانب، والمنتفعين بالمنح.\n\n**طريقة التقديم:** قدّم طلبك عبر \x7bportal_url\x7d خلال فترة التقديم للسكن (عادةً قبل بداية كل فصل).\n\n📧 استفسارات السكن: \x7bemail_housing\x7d", "**Logement étudiant:**\n\n🏠 Des résidences universitaires sont disponibles dans la plupart des universités algériennes.\n💰 Les frais mensuels varient selon le type de chambre (partagée ou individuelle).\n📋 La priorité est généralement accordée aux: étudiants de régions éloignées, étudiants internationaux, et boursiers.\n\n**Comment postuler:** Soumettez votre candidature via \x7bportal_url\x7d pendant la période de demande de logement (généralement avant le début de chaque semestre).\n\n📧 Renseignements logement: \x7bemail_housing\x7d", ["housing", "dormitory", "residence", "accommodation", "room", "dorm", "logement", "résidence", "السكن الجامعي", "إقامة"], ["student housing", "dormitories", "résidence universitaire", "السكن الجامعي"]⟩

/-- Entry 18 of the source catalog list in faq_service.py. -/
def faqEntry18 : FAQ := ⟨18, "financial_aid", "What scholarships are available?", "**Scholarship Opportunities:**\n\n🏆 Merit-based: for students with high academic performance\n💰 Need-based: financial aid based on family income\n🔬 Research scholarships: for Master\x27s and PhD students (includes tuition waiver + stipend)\n⚽ Sports scholarships: for university team members\n🌍 International student scholarships: tuition support for non-Algerian students\n\n📋 Applications are submitted via \x7bportal_url\x7d or at the Financial Aid Office.\n📧 \x7bemail_financial_aid\x7d", "**المنح الدراسية المتاحة:**\n\n🏆 منحة التميز: للطلاب ذوي الأداء الأكاديمي المرتفع\n💰 المنحة الاجتماعية: دعم مالي بناءً على دخل الأسرة\n🔬 منح البحث: لطلاب الماستر والدكتوراه (إعفاء من الرسوم + مخصص مالي)\n⚽ منح الرياضة: لأعضاء الفرق الجامعية\n🌍 منح الطلاب الأجانب: دعم الرسوم لغير الجزائريين\n\n📋 تُقدَّم الطلبات عبر \x7bportal_url\x7d أو في مكتب المنح الدراسية.\n📧 \x7bemail_financial_aid\x7d", "**Bourses disponibles:**\n\n🏆 Bourses au mérite: pour les étudiants avec d\x27excellents résultats académiques\n💰 Aide financière: soutien basé sur les revenus familiaux\n🔬 Bourses de recherche: pour les étudiants en Master et Doctorat (exonération + bourse mensuelle)\n⚽ Bourses sportives: pour les membres des équipes universitaires\n🌍 Bourses étudiants internationaux: aide pour les non-Algériens\n\n📋 Les candidatures se font via \x7bportal_url\x7d ou au Bureau des bourses.\n📧 \x7bemail_financial_aid\x7d", ["scholarship", "financial aid", "funding", "grant", "support", "bourse", "aide financière", "منحة", "دعم مالي"], ["scholarships available", "financial help", "bourses disponibles", "المنح الدراسية"]⟩

/-- Entry 19 of the source catalog list in faq_service.py. -/
def faqEntry19 : FAQ := ⟨19, "technical", "I forgot my student portal password. How do I reset it?", "**Password Reset:**\n\n💻 Online self-reset:\n   1. Go to \x7bportal_url\x7d\n   2. Click \x27Forgot Password?\x27\n   3. Enter your university email address\n   4. Check your inbox (and spam folder!) for the reset link\n   5. Click the link (usually valid for 24h) and set a new password\n\n🏢 In person: visit the IT Support Office on campus with your Student ID + National ID\n\n📧 IT Support: \x7bemail_it\x7d\n⚠️ The university will NEVER ask for your password by email.", "**إعادة تعيين كلمة المرور:**\n\n💻 إعادة تعيين إلكترونية:\n   1. اذهب إلى \x7bportal_url\x7d\n   2. انقر على \x27نسيت كلمة المرور؟\x27\n   3. أدخل بريدك الجامعي\n   4. تحقق من صندوق الوارد (وبريد السبام!) للرابط\n   5. انقر الرابط (صالح عادةً 24 ساعة) وعيّن كلمة مرور جديدة\n\n🏢 حضورياً: زر مكتب الدعم التقني بالحرم الجامعي مع بطاقة الطالب + بطاقة الهوية\n\n📧 الدعم التقني: \x7bemail_it\x7d\n⚠️ لن تطلب الجامعة منك كلمة المرور عبر البريد الإلكتروني أبداً.", "**Réinitialisation du mot de passe:**\n\n💻 Réinitialisation en ligne:\n   1. Allez sur \x7bportal_url\x7d\n   2. Cliquez sur \x27Mot de passe oublié?\x27\n   3. Entrez votre email universitaire\n   4. Vérifiez votre boîte (y compris les spams!) pour le lien\n   5. Cliquez le lien (valide généralement 24h) et créez un nouveau mot de passe\n\n🏢 En personne: rendez-vous au Bureau IT du campus avec carte étudiant + pièce d\x27identité\n\n📧 Support IT: \x7bemail_it\x7d\n⚠️ L\x27université ne vous demandera JAMAIS votre mot de passe par email.", ["password", "reset", "forgot", "login", "access", "portal", "mot de passe", "oublié", "oublie", "reinitialiser", "réinitialiser", "كلمة السر", "نسيت", "نسيت كلمة المرور", "كلمة المرور"], ["reset password", "forgot password", "réinitialiser mot de passe", "j ai oublié mot de passe", "mot de passe oublié", "نسيت كلمة السر"]⟩

/-- Entry 20 of the source catalog list in faq_service.py. -/
def faqEntry20 : FAQ := ⟨20, "exams", "When are the exam periods?", "**Exam Periods (typical Algerian academic calendar):**\n\n🍂 Fall Semester: Midterm exams (November) | Final exams (January) | Makeup/Resit (February)\n🌸 Spring Semester: Midterm exams (April) | Final exams (June) | Makeup/Resit (July)\n☀️ Summer session: Final exams (August/September)\n\n📅 Official exam schedules are posted 2-3 weeks before exams on \x7bportal_url\x7d.\nResults are published within 1-2 weeks after exams.\n📧 Academic affairs: \x7bemail_academic\x7d", "**فترات الامتحانات (التقويم الأكاديمي الجزائري المعتاد):**\n\n🍂 الفصل الخريفي: اختبارات منتصف الفصل (نوفمبر) | نهائي (يناير) | استدراكي (فبراير)\n🌸 الفصل الربيعي: اختبارات منتصف الفصل (أبريل) | نهائي (يونيو) | استدراكي (يوليو)\n☀️ الدورة الصيفية: نهائي (أغسطس/سبتمبر)\n\n📅 تُنشر جداول الامتحانات الرسمية قبل 2-3 أسابيع على \x7bportal_url\x7d.\nتُعلن النتائج خلال 1-2 أسبوع بعد الامتحانات.\n📧 الشؤون الأكاديمية: \x7bemail_academic\x7d", "**Périodes d\x27examens (calendrier académique algérien type):**\n\n🍂 Semestre d\x27automne: Partiels (novembre) | Examens finals (janvier) | Rattrapages (février)\n🌸 Semestre de printemps: Partiels (avril) | Examens finals (juin) | Rattrapages (juillet)\n☀️ Session d\x27été: Examens finals (août/septembre)\n\n📅 Les emplois du temps officiels sont publiés 2-3 semaines avant les examens sur \x7bportal_url\x7d.\nLes résultats sont publiés dans les 1-2 semaines suivant les examens.\n📧 Affaires académiques: \x7bemail_academic\x7d", ["exam", "test", "final", "schedule", "when", "period", "examen", "examens", "quand", "date", "امتحان", "الاختبار", "موعد الامتحان", "امتحانات", "متى الامتحان", "جدول الامتحانات"], ["exam schedule", "when are exams", "calendrier des examens", "quand sont les examens", "مواعيد الامتحانات", "متى الامتحانات"]⟩

/-- Entry 21 of the source catalog list in faq_service.py. -/
def faqEntry21 : FAQ := ⟨21, "exams", "What should I bring to exams?", "**Exam Checklist:**\n\n✅ Required: Student ID (no ID = no entry!), blue/black pens, pencils, eraser\n✅ If allowed by instructor: non-programmable calculator, ruler\n✅ Recommended: clear water bottle, extra pens, watch\n\n❌ Strictly prohibited: mobile phones, smart watches, notes/books (unless open-book),\n   programmable calculators, earphones, any communication device\n\nArrive at least 15 minutes early.\nEntry is typically denied if you arrive more than 15 minutes late.\nGood luck! 🍀", "**قائمة مستلزمات الامتحان:**\n\n✅ إلزامي: بطاقة الطالب (بدون بطاقة = لا دخول!)، أقلام حبر أزرق/أسود، أقلام رصاص، ممحاة\n✅ إذا أجاز الأستاذ: آلة حاسبة غير قابلة للبرمجة، مسطرة\n✅ موصى به: زجاجة ماء شفافة، أقلام احتياطية، ساعة\n\n❌ محظور تماماً: الهاتف المحمول، الساعة الذكية، الأوراق والكتب (إلا إذا كان الامتحان مفتوحاً),\n   الآلات الحاسبة القابلة للبرمجة، سماعات الأذن، أي جهاز تواصل\n\nاحضر قبل 15 دقيقة على الأقل.\nعادةً يُمنع الدخول إذا تأخرت أكثر من 15 دقيقة.\nبالتوفيق! 🍀", "**Liste pour l\x27examen:**\n\n✅ Obligatoire: carte étudiant (sans carte = pas d\x27entrée!), stylos bleu/noir, crayons, gomme\n✅ Si autorisé par l\x27enseignant: calculatrice non programmable, règle\n✅ Recommandé: bouteille d\x27eau transparente, stylos de rechange, montre\n\n❌ Strictement interdit: téléphone portable, montre connectée, notes/livres (sauf examen ouvert),\n   calculatrice programmable, écouteurs, tout appareil de communication\n\nArrivez au moins 15 minutes à l\x27avance.\nL\x27entrée est généralement refusée après 15 minutes de retard.\nBonne chance! 🍀", ["exam", "bring", "required", "allowed", "need", "apporter", "ماذا أحضر", "مستلزمات", "ما أحتاج"], ["what to bring to exam", "exam requirements", "quoi apporter à l\x27examen", "ماذا أحضر للامتحان"]⟩

/-- Entry 22 of the source catalog list in faq_service.py. -/
def faqEntry22 : FAQ := ⟨22, "contact", "How can I contact the university?", "**\x7buniversity_name\x7d – Contact Information:**\n\n📍 \x7baddress\x7d\n🌐 \x7bwebsite\x7d\n📧 General: \x7bemail_general\x7d\n☎  \x7bphone_main\x7d\n\nKey contacts:\n- Registrar: \x7bemail_registrar\x7d\n- Finance: \x7bemail_finance\x7d\n- IT Support: \x7bemail_it\x7d\n- Student Affairs: \x7bemail_student\x7d\n- Financial Aid: \x7bemail_financial_aid\x7d\n- Library: \x7bemail_library\x7d\n\nOffice hours: Sunday–Thursday 8AM–4PM (closed Fri–Sat)\nReduced hours during Ramadan.", "**\x7buniversity_name_ar\x7d – معلومات الاتصال:**\n\n📍 \x7baddress\x7d\n🌐 \x7bwebsite\x7d\n📧 عام: \x7bemail_general\x7d\n☎  \x7bphone_main\x7d\n\nجهات الاتصال الرئيسية:\n- شؤون التسجيل: \x7bemail_registrar\x7d\n- الشؤون المالية: \x7bemail_finance\x7d\n- الدعم التقني: \x7bemail_it\x7d\n- شؤون الطلاب: \x7bemail_student\x7d\n- المنح الدراسية: \x7bemail_financial_aid\x7d\n- المكتبة: \x7bemail_library\x7d\n\nأوقات العمل: الأحد–الخميس 8ص–4م (مغلق الجمعة–السبت)\nساعات مختصرة خلال رمضان.", "**\x7buniversity_name_fr\x7d – Coordonnées:**\n\n📍 \x7baddress\x7d\n🌐 \x7bwebsite\x7d\n📧 Général: \x7bemail_general\x7d\n☎  \x7bphone_main\x7d\n\nContacts clés:\n- Registraire: \x7bemail_registrar\x7d\n- Finance: \x7bemail_finance\x7d\n- Support IT: \x7bemail_it\x7d\n- Scolarité: \x7bemail_student\x7d\n- Bourses: \x7bemail_financial_aid\x7d\n- Bibliothèque: \x7bemail_library\x7d\n\nHoraires: Dimanche–Jeudi 8h–16h (fermé Ven–Sam)\nHoraires réduits pendant le Ramadan.", ["contact", "phone", "email", "reach", "call", "address", "contacter", "coordonnées", "تواصل", "رقم", "بريد"], ["contact university", "phone number", "contacter l\x27université", "كيف أتواصل"]⟩

/-- The fixed FAQ catalog, transcribed entry-by-entry from the module-level list in faq_service.py. -/
def FAQS : List FAQ := [faqEntry1, faqEntry2, faqEntry3, faqEntry4, faqEntry5, faqEntry6, faqEntry7, faqEntry8, faqEntry9, faqEntry10, faqEntry11, faqEntry12, faqEntry13, faqEntry14, faqEntry15, faqEntry16, faqEntry17, faqEntry18, faqEntry19, faqEntry20, faqEntry21, faqEntry22]

/-! ## `FAQMatcher` -/

/-- The matcher class: its only instance state is the catalog list
(`self.faqs = _FAQS` in the constructor). -/
structure FAQMatcher where
  faqs : List FAQ
deriving DecidableEq

/-- The module-level singleton `faq_matcher = FAQMatcher()`. -/
def faq_matcher : FAQMatcher := ⟨FAQS⟩

/-- `FAQMatcher._preprocess`: lower-case, replace every character that is not
a word character, whitespace, or in the Arabic block `؀-ۿ` by a space, then
collapse whitespace. -/
def preprocess (text : List Char) : List Char :=
  let lowered := lowerL text
  let cleaned := lowered.map
    (fun c => if isWordChar c || isPySpace c || isArabicBlock c then c else ' ')
  joinSpace (splitWS cleaned)

/-- `FAQMatcher._keyword_score(query, faq)`: the fraction of keywords that
occur as substrings of the query or of one of its whitespace tokens, plus a
`0.3` bonus when some variant is a substring of the query, clamped to `1`. -/
def keyword_score (query : List Char) (faq : FAQ) : ℚ :=
  let query_words := splitWS query
  let hits := (faq.keywords.filter
    (fun kw => isSub (lowerL kw.data) query
      || query_words.any (fun w => isSub (lowerL kw.data) w))).length
  let variant_bonus : ℚ :=
    if faq.variants.any (fun v => isSub (lowerL v.data) query) then 3/10 else 0
  pyMin ((hits : ℚ) / (Nat.max faq.keywords.length 1 : ℕ) + variant_bonus) 1

/-- `FAQMatcher._semantic_score(query, faq)`: the best `SequenceMatcher`
ratio of the query against the preprocessed question and variants (`0` when
there is no variant; the ratio is never negative, so folding `max` from `0`
agrees with Python's `max(..., default=0)`). -/
def semantic_score (query : List Char) (faq : FAQ) : ℚ :=
  let q_sim := ratioOf query (preprocess faq.question.data)
  let v_sim := (faq.variants.map (fun v => ratioOf query (preprocess v.data))).foldl pyMax 0
  pyMax q_sim v_sim

/-- The combined score `keyword * 0.6 + semantic * 0.4` of one entry against
a preprocessed query. -/
def combinedScore (query : List Char) (faq : FAQ) : ℚ :=
  keyword_score query faq * (6/10) + semantic_score query faq * (4/10)

/-- A returned match: entry, rounded confidence, category. -/
structure MatchResult where
  faq : FAQ
  confidence : ℚ
  category : String
deriving DecidableEq

/-- `FAQMatcher.find_best_match(user_query, threshold=0.3)`: keep the first
entry realising the strictly largest combined score, return it (with its
confidence rounded to two decimals) when the best score reaches the
threshold.  (When the catalog is empty or every score is zero and the
threshold is `≤ 0`, the Python code would raise a `TypeError` subscripting
`None`; this is modelled as `none` — the branch is unreachable at the
positive default threshold used by the program.)  The loop body
(`if score > best_score`) is the step function below. -/
def bestStep (query : List Char) (acc : Option FAQ × ℚ) (faq : FAQ) :
    Option FAQ × ℚ :=
  let score := combinedScore query faq
  if acc.2 < score then (some faq, score) else acc

/-- See `find_best_match`. -/
def find_best_match (m : FAQMatcher) (user_query : String) (threshold : ℚ := 3/10) :
    Option MatchResult :=
  let query := preprocess user_query.data
  let best := m.faqs.foldl (bestStep query) (none, 0)
  if threshold ≤ best.2 then
    best.1.map (fun f => ⟨f, pyRound2 best.2, f.category⟩)
  else none

/-- The catalog-ordered list of entries whose combined score reaches the
threshold, as match results (the `matches` list of
`find_multiple_matches` before sorting). -/
def eligibleMatches (m : FAQMatcher) (query : List Char) (threshold : ℚ) :
    List MatchResult :=
  m.faqs.filterMap (fun faq =>
    let score := combinedScore query faq
    if threshold ≤ score then some ⟨faq, pyRound2 score, faq.category⟩ else none)

/-- Insert into a descending-confidence list, after every element of equal or
larger confidence already present. -/
def insertDesc (x : MatchResult) : List MatchResult → List MatchResult
  | [] => [x]
  | y :: ys => if x.confidence < y.confidence then y :: insertDesc x ys else x :: y :: ys

/-- Stable descending sort by confidence.  `list.sort(key=..., reverse=True)`
is a stable descending sort, and insertion of each element in front of the
strictly-smaller suffix realises the same (unique) stable descending
arrangement. -/
def sortDesc (l : List MatchResult) : List MatchResult := l.foldr insertDesc []

/-- Python slice `l[:k]` for an integer bound `k` (a negative `k` counts from
the end). -/
def pySlice {α : Type} (l : List α) (k : ℤ) : List α :=
  if k < 0 then l.take (l.length - k.natAbs) else l.take k.toNat

/-- `FAQMatcher.find_multiple_matches(user_query, top_k=3, threshold=0.25)`. -/
def find_multiple_matches (m : FAQMatcher) (user_query : String)
    (top_k : ℤ := 3) (threshold : ℚ := 1/4) : List MatchResult :=
  let query := preprocess user_query.data
  pySlice (sortDesc (eligibleMatches m query threshold)) top_k

/-! ## `search_faq` -/

/-- The outcome of `search_faq`: either a filled, language-matched answer with
its metadata, or a deferral to the generative backend. -/
inductive SearchResult where
  | found (answer question : String) (confidence : ℚ) (category language : String)
  | notFound (language message : String)
deriving DecidableEq

/-- `answers.get(lang) or answers.get('en', '')`: the per-language template
with fallback to English (every catalog entry carries all three languages, so
`get(lang)` never misses; an empty translation is falsy and falls back). -/
def answerFor (faq : FAQ) (lang : String) : String :=
  let raw := if lang = "ar" then faq.answer_ar
    else if lang = "fr" then faq.answer_fr
    else faq.answer_en
  pyOrS raw faq.answer_en

/-- `search_faq(query, university)`: detect the language, find the best
match, fill the selected template against the snapshot. -/
def search_faq (query : String) (university : Option University) : SearchResult :=
  let lang := detect_language query
  match find_best_match faq_matcher query with
  | some mtch =>
    let raw_answer := answerFor mtch.faq lang
    let ph := build_placeholders university
    SearchResult.found (fill raw_answer ph) mtch.faq.question mtch.confidence
      mtch.category lang
  | none => SearchResult.notFound lang "No FAQ match found. AI will respond."

/-! ## Telegram session store and selection flow (`telegram_bot.py`)

The Telegram transport, the database and the generative backend are external:
each embedded handler takes the data its Python original would fetch (the
directory lookup result, the active child list, the generated response) and
returns the new session state together with the text it would send.  The
`session_start` timestamp (wall-clock only, never branched on) is left out of
the session record. -/

/-- `MAX_HISTORY_MESSAGES = 10`. -/
def MAX_HISTORY_MESSAGES : Nat := 10

/-- One history entry `{role, content}`. -/
structure Turn where
  role : String
  content : String
deriving DecidableEq

/-- The per-user session dict of `telegram_bot.py`. -/
structure Session where
  university_id : Option Nat
  university_name : Option String
  faculty_id : Option Nat
  faculty_name : Option String
  department_id : Option Nat
  department_name : Option String
  history : List Turn
deriving DecidableEq

/-- `_new_session()`: all bindings `None`, empty history. -/
def newSession : Session :=
  ⟨none, none, none, none, none, none, []⟩

/-- The process-wide `sessions` dict, as an association list keyed by user id. -/
def lookupSession (store : List (Nat × Session)) (uid : Nat) : Option Session :=
  (store.find? (fun p => p.1 = uid)).map (fun p => p.2)

/-- `sessions[user_id] = s`. -/
def setSession (store : List (Nat × Session)) (uid : Nat) (s : Session) :
    List (Nat × Session) :=
  if (store.find? (fun p => p.1 = uid)).isSome then
    store.map (fun p => if p.1 = uid then (uid, s) else p)
  else store ++ [(uid, s)]

/-- Python truthiness of an optional integer id (`None` and `0` are falsy;
real ids are positive). -/
def pyTruthyId (o : Option Nat) : Bool :=
  match o with
  | none => false
  | some n => n != 0

/-- `_is_setup_complete(user_id)`: both the university id and the faculty id
of the user's session are bound (and truthy). -/
def is_setup_complete (store : List (Nat × Session)) (uid : Nat) : Bool :=
  match lookupSession store uid with
  | none => false
  | some s => pyTruthyId s.university_id && pyTruthyId s.faculty_id

/-- The session-level effect of `_append_history`: push the turn, then, when
the history exceeds `MAX_HISTORY_MESSAGES`, keep only the last
`MAX_HISTORY_MESSAGES` turns (`history[-MAX_HISTORY_MESSAGES:]`). -/
def appendTurn (s : Session) (t : Turn) : Session :=
  let h := s.history ++ [t]
  if MAX_HISTORY_MESSAGES < h.length then
    { s with history := h.drop (h.length - MAX_HISTORY_MESSAGES) }
  else { s with history := h }

/-- `_append_history(user_id, role, content)` (the session is lazily created
by the `_session` call inside it). -/
def append_history (store : List (Nat × Session)) (uid : Nat)
    (role content : String) : List (Nat × Session) :=
  setSession store uid (appendTurn ((lookupSession store uid).getD newSession) ⟨role, content⟩)

/-- A faculty row, with the fields the bot reads. -/
structure Faculty where
  id : Nat
  name : String
  is_active : Bool
deriving DecidableEq

/-- A department row, with the fields the bot reads. -/
structure Department where
  id : Nat
  name : String
  is_active : Bool
deriving DecidableEq

/-- Rendering of a session field inside an f-string (`None` prints as such). -/
def strOfOpt (o : Option String) : String := o.getD "None"

/-- The reply of `_handle_university_selected` on a failed lookup. -/
def uniNotFoundMsg : String := "❌ University not found. Please /start again."

/-- The reply of `_handle_faculty_selected` on a failed lookup. -/
def facNotFoundMsg : String := "❌ Faculty not found. Please /start again."

/-- The reply of `_handle_department_selected` on a failed lookup. -/
def deptNotFoundMsg : String := "❌ Department not found. Please /start again."

/-- The guard reply of `handle_message` when the profile is incomplete. -/
def incompleteProfileMsg : String :=
  "⚠️ Please complete your profile first.\nUse /start to select your university and faculty."

/-- `_handle_university_selected(query, user_id, university_id)` as a pure
transition of the user's session.  `uni?` is the directory lookup result
(`University.query.get`) and `activeFaculties` the active, name-ordered
faculty list of that university (`_build_faculty_keyboard`'s query; the
handler only branches on its emptiness). -/
def handleUniversitySelected (s : Session) (uni? : Option University)
    (activeFaculties : List Faculty) : Session × String :=
  match uni? with
  | none => (s, uniNotFoundMsg)
  | some uni =>
    if !uni.is_active then (s, uniNotFoundMsg)
    else
      let s1 := { s with university_id := some uni.id, university_name := some uni.name }
      if activeFaculties.isEmpty then
        ({ s1 with faculty_id := none, faculty_name := some "N/A" },
         "✅ *University selected:* " ++ uni.name ++
         "\n\nℹ️ No faculties are registered for this university yet.\n\n" ++
         "You can now ask me anything about your institution!")
      else
        (s1, "✅ *University:* " ++ uni.name ++ "\n\n*Step 2 of 3 — Please select your faculty:*")

/-- `_handle_faculty_selected(query, user_id, faculty_id)`; `fac?` is the
lookup result and `activeDepts` the active department list of the faculty. -/
def handleFacultySelected (s : Session) (fac? : Option Faculty)
    (activeDepts : List Department) : Session × String :=
  match fac? with
  | none => (s, facNotFoundMsg)
  | some fac =>
    if !fac.is_active then (s, facNotFoundMsg)
    else
      let s1 := { s with faculty_id := some fac.id, faculty_name := some fac.name }
      let uniName := strOfOpt s1.university_name
      if activeDepts.isEmpty then
        ({ s1 with department_id := none, department_name := some "N/A" },
         "✅ *University:* " ++ uniName ++ "\n✅ *Faculty:* " ++ fac.name ++
         "\n\nℹ️ No departments are registered for this faculty yet.\n\nYou're all set! Ask me anything 🎓")
      else
        (s1, "✅ *University:* " ++ uniName ++ "\n✅ *Faculty:* " ++ fac.name ++
          "\n\n*Step 3 of 3 — Please select your department:*")

/-- `_handle_department_selected(query, user_id, department_id)`. -/
def handleDepartmentSelected (s : Session) (dept? : Option Department) :
    Session × String :=
  match dept? with
  | none => (s, deptNotFoundMsg)
  | some dept =>
    if !dept.is_active then (s, deptNotFoundMsg)
    else
      let s1 := { s with department_id := some dept.id, department_name := some dept.name }
      (s1,
       "🎉 *Setup complete!*\n\n🏛 *University :* " ++ strOfOpt s1.university_name ++
       "\n🏫 *Faculty    :* " ++ strOfOpt s1.faculty_name ++
       "\n📂 *Department :* " ++ strOfOpt s1.department_name ++
       "\n\nI'm ready to help you. Ask me anything about your academic journey!\n\n" ++
       "_Use /status to review your selection or /reset to start over._")

/-- The knowledge-context block of `handle_message`: when the knowledge
search returns entries, one `- title: content[:300]` line per entry, joined
with newlines; else `None`. -/
def knowledgeContextOf (results : List (String × String)) : Option String :=
  match results with
  | [] => none
  | _ =>
    some (List.intercalate "\n".data (results.map
      (fun r => ("- " ++ r.1 ++ ": ").data ++ r.2.data.take 300))).asString

/-- `handle_message(update, context)` as a transition of the session store.
`text` is the inbound message; `ai_response` is what the external generative
collaborator returns for the assembled context (the upstream-failure branch
is not taken).  When the profile guard fires the store is returned untouched
with the directive reply; otherwise the user turn and the assistant turn are
appended (capped) and the response is sent. -/
def handleMessage (store : List (Nat × Session)) (uid : Nat) (text : String)
    (ai_response : String) : List (Nat × Session) × String :=
  if !(is_setup_complete store uid) then
    (store, incompleteProfileMsg)
  else
    let store1 := append_history store uid "user" text
    let store2 := append_history store1 uid "assistant" ai_response
    (store2, ai_response)

/-! ## Helper lemmas -/

/-- `appendTurn` leaves the bindings untouched and caps the history length:
the new length is `min (old + 1) 10` whatever the old length was. -/
theorem appendTurn_history_length (s : Session) (t : Turn) :
    ((appendTurn s t).history).length = min (s.history.length + 1) MAX_HISTORY_MESSAGES := by
  unfold appendTurn
  by_cases h : MAX_HISTORY_MESSAGES < (s.history ++ [t]).length
  · simp only [if_pos h]
    simp only [List.length_drop, List.length_append, List.length_singleton] at *
    omega
  · simp only [if_neg h]
    simp only [List.length_append, List.length_singleton] at *
    omega

/-- In both branches of `appendTurn` the new history is the old one plus the
turn, with the overflow dropped from the front. -/
theorem appendTurn_history (s : Session) (t : Turn) :
    (appendTurn s t).history =
      (s.history ++ [t]).drop (s.history.length + 1 - MAX_HISTORY_MESSAGES) := by
  unfold appendTurn
  by_cases h : MAX_HISTORY_MESSAGES < (s.history ++ [t]).length
  · simp only [List.length_append, List.length_singleton] at h
    simp only [List.length_append, List.length_singleton, if_pos h]
  · simp only [if_neg h]
    simp only [not_lt, List.length_append, List.length_singleton] at h
    rw [show s.history.length + 1 - MAX_HISTORY_MESSAGES = 0 by omega, List.drop_zero]

/-- The history of a fold of `appendTurn` is the suffix of the concatenated
turn list that fits under the cap. -/
theorem foldl_appendTurn_history (ts : List Turn) :
    ∀ (s : Session), s.history.length ≤ MAX_HISTORY_MESSAGES →
      ((ts.foldl appendTurn s).history) =
        (s.history ++ ts).drop (s.history.length + ts.length - MAX_HISTORY_MESSAGES) := by
  induction ts with
  | nil =>
    intro s hs
    simp only [List.foldl_nil, List.append_nil, List.length_nil]
    rw [show s.history.length + 0 - MAX_HISTORY_MESSAGES = 0 by omega, List.drop_zero]
  | cons t ts ih =>
    intro s hs
    simp only [List.foldl_cons]
    have h10 : (appendTurn s t).history.length ≤ MAX_HISTORY_MESSAGES := by
      rw [appendTurn_history_length]; exact Nat.min_le_right _ _
    rw [ih _ h10, appendTurn_history]
    rw [show s.history ++ t :: ts = (s.history ++ [t]) ++ ts from by simp]
    have hsplit := @List.drop_append_of_le_length Turn (s.history ++ [t]) ts
      (s.history.length + 1 - MAX_HISTORY_MESSAGES)
      (by simp only [List.length_append, List.length_singleton]; omega)
    rw [← hsplit, List.drop_drop]
    congr 1
    simp only [List.length_drop, List.length_append, List.length_singleton, List.length_cons,
      List.length_nil]
    omega

/-! ## Claims -/

/-- C4: for every sequence of append-turn calls on a fresh session the history
length never exceeds 10, and after exactly 11 appends the history is the last
10 turns: the 1st appended turn is gone (for pairwise-distinct turns), the
11th is present, and the length is exactly 10. -/
theorem history_cap_fifo :
    (∀ (ts : List Turn),
       ((ts.foldl appendTurn newSession).history).length ≤ MAX_HISTORY_MESSAGES) ∧
    (∀ (ts : List Turn), ts.length = 11 →
       (ts.foldl appendTurn newSession).history = ts.drop 1 ∧
       ((ts.foldl appendTurn newSession).history).length = 10 ∧
       (ts.Nodup → ∀ t, ts.head? = some t →
          t ∉ (ts.foldl appendTurn newSession).history) ∧
       (∀ (hlt : 10 < ts.length),
          ts.get ⟨10, hlt⟩ ∈ (ts.foldl appendTurn newSession).history)) := by
  have hnew : newSession.history = [] := rfl
  constructor
  · intro ts
    rw [foldl_appendTurn_history ts newSession (by rw [hnew]; simp [MAX_HISTORY_MESSAGES])]
    simp only [hnew, List.nil_append, List.length_nil, List.length_drop]
    omega
  · intro ts h11
    have hh : (ts.foldl appendTurn newSession).history = ts.drop 1 := by
      rw [foldl_appendTurn_history ts newSession (by rw [hnew]; simp [MAX_HISTORY_MESSAGES])]
      simp only [hnew, List.nil_append, List.length_nil, h11]
      rfl
    refine ⟨hh, ?_, ?_, ?_⟩
    · rw [hh]; simp [h11]
    · intro hnd t ht
      match ts, h11 with
      | a :: rest, _ =>
        simp only [List.head?_cons, Option.some.injEq] at ht
        subst ht
        rw [hh]
        simpa using (List.nodup_cons.mp hnd).1
    · intro hlt
      rw [hh]
      have h9 : 9 < (ts.drop 1).length := by simp [h11]
      have : ts.get ⟨10, hlt⟩ = (ts.drop 1).get ⟨9, h9⟩ := by
        simp [List.getElem_drop']
      rw [this]
      exact (ts.drop 1).get_mem _ _

/-- The eleven concrete turns of the C4 witness. -/
def elevenTurns : List Turn :=
  [⟨"user", "m1"⟩, ⟨"assistant", "m2"⟩, ⟨"user", "m3"⟩, ⟨"assistant", "m4"⟩,
   ⟨"user", "m5"⟩, ⟨"assistant", "m6"⟩, ⟨"user", "m7"⟩, ⟨"assistant", "m8"⟩,
   ⟨"user", "m9"⟩, ⟨"assistant", "m10"⟩, ⟨"user", "m11"⟩]

/-- Witness for C4 at eleven concrete distinct turns. -/
theorem history_cap_fifo_witness :
    (elevenTurns.foldl appendTurn newSession).history = elevenTurns.drop 1 ∧
    ((elevenTurns.foldl appendTurn newSession).history).length = 10 ∧
    (⟨"user", "m1"⟩ : Turn) ∉ (elevenTurns.foldl appendTurn newSession).history ∧
    (⟨"user", "m11"⟩ : Turn) ∈ (elevenTurns.foldl appendTurn newSession).history := by
  have h := history_cap_fifo.2 elevenTurns (by decide)
  exact ⟨h.1, h.2.1, h.2.2.1 (by decide) _ rfl, h.2.2.2 (by decide)⟩

/-- C5: a free-text message while the selection is incomplete is answered
with the profile directive and leaves the whole session store untouched (in
particular no turn is appended to any history). -/
theorem handle_message_incomplete_guard (store : List (Nat × Session)) (uid : Nat)
    (text ai_response : String) (h : is_setup_complete store uid = false) :
    handleMessage store uid text ai_response = (store, incompleteProfileMsg) := by
  unfold handleMessage
  rw [h]
  simp

/-- Witness for C5: a user whose session has only the university bound. -/
theorem handle_message_incomplete_guard_witness :
    is_setup_complete
      [(7, { newSession with university_id := some 3, university_name := some "U" })] 7
      = false ∧
    handleMessage
      [(7, { newSession with university_id := some 3, university_name := some "U" })] 7
      "hello" "generated"
      = ([(7, { newSession with university_id := some 3, university_name := some "U" })],
         incompleteProfileMsg) :=
  ⟨by decide, handle_message_incomplete_guard _ 7 "hello" "generated" (by decide)⟩

/-- C6: a selection event whose referenced entity is missing or inactive
returns the restart prompt and leaves the session unmodified, for all three
levels (university, faculty, department). -/
theorem selection_not_found_unchanged :
    (∀ (s : Session) (lookup : Option University) (facs : List Faculty),
       (∀ uni, lookup = some uni → uni.is_active = false) →
       handleUniversitySelected s lookup facs = (s, uniNotFoundMsg)) ∧
    (∀ (s : Session) (lookup : Option Faculty) (depts : List Department),
       (∀ fac, lookup = some fac → fac.is_active = false) →
       handleFacultySelected s lookup depts = (s, facNotFoundMsg)) ∧
    (∀ (s : Session) (lookup : Option Department),
       (∀ dept, lookup = some dept → dept.is_active = false) →
       handleDepartmentSelected s lookup = (s, deptNotFoundMsg)) := by
  refine ⟨?_, ?_, ?_⟩
  · intro s lookup facs h
    cases lookup with
    | none => rfl
    | some uni => simp [handleUniversitySelected, h uni rfl]
  · intro s lookup depts h
    cases lookup with
    | none => rfl
    | some fac => simp [handleFacultySelected, h fac rfl]
  · intro s lookup h
    cases lookup with
    | none => rfl
    | some dept => simp [handleDepartmentSelected, h dept rfl]

/-- Witness for C6: a missing university, an inactive faculty, an inactive
department. -/
theorem selection_not_found_unchanged_witness :
    handleUniversitySelected newSession none [] = (newSession, uniNotFoundMsg) ∧
    handleFacultySelected newSession (some ⟨2, "F", false⟩) [] = (newSession, facNotFoundMsg) ∧
    handleDepartmentSelected newSession (some ⟨3, "D", false⟩) = (newSession, deptNotFoundMsg) :=
  ⟨selection_not_found_unchanged.1 newSession none [] (fun _ h => by cases h),
   selection_not_found_unchanged.2.1 newSession (some ⟨2, "F", false⟩) []
     (fun fac h => by cases h; rfl),
   selection_not_found_unchanged.2.2 newSession (some ⟨3, "D", false⟩)
     (fun dept h => by cases h; rfl)⟩

/-- C8: any text with at least two Arabic-script codepoints is classified as
Arabic, whatever else it contains. -/
theorem detect_language_arabic_priority (text : String)
    (h : 2 ≤ arabicCharCount text.data) : detect_language text = "ar" := by
  unfold detect_language
  rw [if_pos (by omega)]

/-- Witness for C8: Arabic word surrounded by French function words and
diacritics. -/
theorem detect_language_arabic_priority_witness :
    2 ≤ arabicCharCount "Bonjour, où est le département مرحبا ?".data ∧
    detect_language "Bonjour, où est le département مرحبا ?" = "ar" :=
  ⟨by decide, detect_language_arabic_priority _ (by decide)⟩

/-- C1 (failing input): after a successful institution selection whose
directory reports zero active faculties, the handler binds
`faculty_name = "N/A"` but leaves `faculty_id = None`; consequently
`_is_setup_complete` is `False` and a free-text message is refused with the
profile directive — the session does not behave as READY and the sub-unit id
binding stays null. -/
theorem no_faculties_leaves_setup_incomplete :
    (handleUniversitySelected newSession
        (some ⟨1, "Ghost University", none, none, none, none, none, none, true⟩)
        []).2
      = "✅ *University selected:* Ghost University\n\nℹ️ No faculties are registered for this university yet.\n\nYou can now ask me anything about your institution!" ∧
    (handleUniversitySelected newSession
        (some ⟨1, "Ghost University", none, none, none, none, none, none, true⟩)
        []).1.faculty_id = none ∧
    (handleUniversitySelected newSession
        (some ⟨1, "Ghost University", none, none, none, none, none, none, true⟩)
        []).1.faculty_name = some "N/A" ∧
    is_setup_complete
      [(5, (handleUniversitySelected newSession
        (some ⟨1, "Ghost University", none, none, none, none, none, none, true⟩)
        []).1)] 5 = false ∧
    handleMessage
      [(5, (handleUniversitySelected newSession
        (some ⟨1, "Ghost University", none, none, none, none, none, none, true⟩)
        []).1)] 5 "When do exams start?" "generated"
      = ([(5, (handleUniversitySelected newSession
        (some ⟨1, "Ghost University", none, none, none, none, none, none, true⟩)
        []).1)], incompleteProfileMsg) := by
  exact ⟨rfl, rfl, rfl, by decide, by decide⟩

/-- `pyOr` with a non-empty default is non-empty. -/
theorem pyOr_ne_empty (x : Option String) (d : String) (hd : d ≠ "") :
    pyOr x d ≠ "" := by
  unfold pyOr
  cases x with
  | none => exact hd
  | some s =>
    by_cases h : s = ""
    · simp [h, hd]
    · simp [h]

/-- `pyOrS` with a non-empty default is non-empty. -/
theorem pyOrS_ne_empty (s d : String) (hd : d ≠ "") : pyOrS s d ≠ "" := by
  unfold pyOrS
  by_cases h : s = ""
  · simp [h, hd]
  · simp [h]

/-- Appending to a non-empty string keeps it non-empty. -/
theorem str_append_ne_empty (a b : String) (ha : a ≠ "") : a ++ b ≠ "" := by
  intro h
  apply ha
  have hd := congrArg String.data h
  rw [String.data_append] at hd
  rcases List.append_eq_nil.mp hd with ⟨h1, _⟩
  exact String.ext h1

/-- C2 counterexample: a snapshot without a city makes the `city` token (and
its localized twins) resolve to the empty string, refuting "every token has a
non-empty string value". -/
theorem build_placeholders_city_empty_cex :
    ("city", "") ∈ build_placeholders
      (some ⟨1, "University of Algiers", none, none, none, none, none, none, true⟩) ∧
    ¬ (∀ p ∈ build_placeholders
        (some ⟨1, "University of Algiers", none, none, none, none, none, none, true⟩),
        p.2 ≠ "") := by
  refine ⟨by decide, fun h => ?_⟩
  exact h ("city", "") (by decide) rfl

/-- C2 amended: with no snapshot every token is non-empty; with a snapshot
every token other than `city`, `city_ar`, `city_fr` is non-empty, and those
three carry the snapshot's city verbatim (so they are empty exactly when the
snapshot has no city). -/
theorem build_placeholders_non_city_tokens_nonempty :
    (∀ p ∈ build_placeholders none, p.2 ≠ "") ∧
    (∀ (u : University), ∀ p ∈ build_placeholders (some u),
       p.1 ∉ (["city", "city_ar", "city_fr"] : List String) → p.2 ≠ "") ∧
    (∀ (u : University), ∀ p ∈ build_placeholders (some u),
       p.1 ∈ (["city", "city_ar", "city_fr"] : List String) → p.2 = pyOr u.city "") := by
  refine ⟨by decide, ?_, ?_⟩
  · intro u p hp hnot
    simp only [build_placeholders, List.mem_cons, List.not_mem_nil, or_false] at hp
    rcases hp with rfl|rfl|rfl|rfl|rfl|rfl|rfl|rfl|rfl|rfl|rfl|rfl|rfl|rfl|rfl|rfl|rfl|rfl|rfl
    · exact pyOrS_ne_empty _ _ (by decide)
    · exact pyOr_ne_empty _ _ (by decide)
    · exact pyOrS_ne_empty _ _ (by decide)
    · exact absurd (by simp) hnot
    · exact absurd (by simp) hnot
    · exact absurd (by simp) hnot
    · exact pyOrS_ne_empty _ _ (by decide)
    · exact pyOr_ne_empty _ _ (by decide)
    · exact pyOr_ne_empty _ _ (by decide)
    · exact str_append_ne_empty _ _ (by decide)
    · exact str_append_ne_empty _ _ (by decide)
    · exact str_append_ne_empty _ _ (by decide)
    · exact str_append_ne_empty _ _ (by decide)
    · exact str_append_ne_empty _ _ (by decide)
    · exact str_append_ne_empty _ _ (by decide)
    · exact str_append_ne_empty _ _ (by decide)
    · exact str_append_ne_empty _ _ (by decide)
    · exact pyOrS_ne_empty _ _ (by decide)
    · exact pyOr_ne_empty _ _
        (str_append_ne_empty _ _ (str_append_ne_empty _ _ (str_append_ne_empty _ _ (by decide))))
  · intro u p hp hin
    simp only [build_placeholders, List.mem_cons, List.not_mem_nil, or_false] at hp
    rcases hp with rfl|rfl|rfl|rfl|rfl|rfl|rfl|rfl|rfl|rfl|rfl|rfl|rfl|rfl|rfl|rfl|rfl|rfl|rfl <;>
      first
        | rfl
        | simp at hin

/-- Witness for C2 at a concrete snapshot with several null fields. -/
theorem build_placeholders_nonempty_witness :
    (("university_name", "Université de Batna").snd ≠ "") ∧
    ∀ p ∈ build_placeholders
      (some ⟨9, "Université de Batna", none, none, none, some "contact@univ-batna.dz", none, none, true⟩),
      p.1 ∉ (["city", "city_ar", "city_fr"] : List String) → p.2 ≠ "" :=
  ⟨by decide,
   build_placeholders_non_city_tokens_nonempty.2.1
     ⟨9, "Université de Batna", none, none, none, some "contact@univ-batna.dz", none, none, true⟩⟩

/-! ## Score nonnegativity and the best-entry fold -/

/-- The second component never decreases under `pyMax`. -/
theorem le_pyMax_right (a b : ℚ) : b ≤ pyMax a b := by
  unfold pyMax
  by_cases h : a ≤ b
  · simp [h]
  · simp [h]
    exact le_of_not_le h

/-- The first component never decreases under `pyMax`. -/
theorem le_pyMax_left (a b : ℚ) : a ≤ pyMax a b := by
  unfold pyMax
  by_cases h : a ≤ b
  · simp [h]
  · simp [h]

/-- A `pyMax`-fold never goes below its seed. -/
theorem le_foldl_pyMax (l : List ℚ) : ∀ (z : ℚ), z ≤ l.foldl pyMax z := by
  induction l with
  | nil => intro z; simp
  | cons x xs ih =>
    intro z
    calc z ≤ pyMax z x := le_pyMax_left z x
    _ ≤ xs.foldl pyMax (pyMax z x) := ih _

/-- The similarity ratio is never negative. -/
theorem ratioOf_nonneg (a b : List Char) : 0 ≤ ratioOf a b := by
  unfold ratioOf
  by_cases h : a.length + b.length = 0
  · simp [h]
  · simp only [h, if_false]
    positivity

/-- `pyMin` of two nonnegative rationals is nonnegative. -/
theorem pyMin_nonneg (a b : ℚ) (ha : 0 ≤ a) (hb : 0 ≤ b) : 0 ≤ pyMin a b := by
  unfold pyMin
  by_cases h : a ≤ b
  · simp [h, ha]
  · simp [h, hb]

/-- The keyword score is never negative. -/
theorem keyword_score_nonneg (q : List Char) (f : FAQ) : 0 ≤ keyword_score q f := by
  unfold keyword_score
  apply pyMin_nonneg
  · apply add_nonneg
    · positivity
    · split <;> norm_num
  · norm_num

/-- The semantic score is never negative. -/
theorem semantic_score_nonneg (q : List Char) (f : FAQ) : 0 ≤ semantic_score q f := by
  unfold semantic_score
  calc (0:ℚ) ≤ (f.variants.map (fun v => ratioOf q (preprocess v.data))).foldl pyMax 0 :=
        le_foldl_pyMax _ 0
  _ ≤ _ := le_pyMax_right _ _

/-- The combined score is never negative. -/
theorem combinedScore_nonneg (q : List Char) (f : FAQ) : 0 ≤ combinedScore q f := by
  unfold combinedScore
  have h1 := keyword_score_nonneg q f
  have h2 := semantic_score_nonneg q f
  have : (0:ℚ) ≤ keyword_score q f * (6/10) := by positivity
  have : (0:ℚ) ≤ semantic_score q f * (4/10) := by positivity
  linarith

/-- Everything the `best` fold of `find_best_match` guarantees: the running
best dominates every entry seen; a `none` best means the running score is
still `0`; a `some` best is an entry of the list realising the running score,
and it is the first entry to do so (every earlier entry scores strictly
less). -/
theorem bestFold_inv (query : List Char) (l : List FAQ) :
    (∀ f ∈ l, combinedScore query f ≤ (l.foldl (bestStep query) (none, 0)).2) ∧
    ((l.foldl (bestStep query) (none, 0)).1 = none →
       (l.foldl (bestStep query) (none, 0)).2 = 0) ∧
    (∀ f, (l.foldl (bestStep query) (none, 0)).1 = some f →
       (l.foldl (bestStep query) (none, 0)).2 = combinedScore query f ∧
       ∃ (i : Nat) (hi : i < l.length), l.get ⟨i, hi⟩ = f ∧
         (∀ (j : Nat) (hj : j < l.length), j < i →
            combinedScore query (l.get ⟨j, hj⟩) < combinedScore query f)) := by
  induction l using List.reverseRecOn with
  | nil => exact ⟨by simp, by simp, by simp⟩
  | append_singleton l x ih =>
    obtain ⟨ih1, ih2, ih3⟩ := ih
    rw [List.foldl_append] at *
    set res := l.foldl (bestStep query) (none, 0) with hres
    simp only [List.foldl_cons, List.foldl_nil]
    by_cases hlt : res.2 < combinedScore query x
    · have hstep : bestStep query res x = (some x, combinedScore query x) := by
        unfold bestStep
        simp [hlt]
      rw [hstep]
      refine ⟨?_, by simp, ?_⟩
      · intro f hf
        rcases List.mem_append.mp hf with hl | hx
        · exact le_of_lt (lt_of_le_of_lt (ih1 f hl) hlt)
        · rw [List.mem_singleton.mp hx]
      · intro f hf
        injection hf with hf
        subst hf
        refine ⟨rfl, l.length, (by simp : l.length < (l ++ [x]).length), ?_, ?_⟩
        · show (l ++ [x]).get ⟨l.length, _⟩ = x
          rw [List.get_eq_getElem]
          simp
        · intro j hj hjl
          rw [List.get_append j hjl]
          exact lt_of_le_of_lt (ih1 _ (l.get_mem j hjl)) hlt
    · have hstep : bestStep query res x = res := by
        unfold bestStep
        simp [hlt]
      rw [hstep]
      refine ⟨?_, ih2, ?_⟩
      · intro f hf
        rcases List.mem_append.mp hf with hl | hx
        · exact ih1 f hl
        · rw [List.mem_singleton.mp hx]
          exact le_of_not_lt hlt
      · intro f hf
        obtain ⟨heq, i, hi, hget, hfirst⟩ := ih3 f hf
        refine ⟨heq, i, lt_of_lt_of_le hi (by simp), ?_, ?_⟩
        · rw [List.get_append i hi, hget]
        · intro j hj hji
          have hjl : j < l.length := lt_trans hji hi
          rw [List.get_append j hjl]
          exact hfirst j hjl hji

/-- C3: at the program's threshold `0.3`, `find_best_match` returns a match
exactly when some entry's combined score `0.6·keyword + 0.4·semantic`
reaches `0.3`; the returned entry is a catalog entry of maximal combined
score, carrying that score (rounded to two decimals) as confidence and its
own category; otherwise it returns no match (and then every entry scores
below `0.3`). -/
theorem find_best_match_spec (m : FAQMatcher) (q : String) :
    (∀ r : MatchResult, find_best_match m q (3/10) = some r →
       r.faq ∈ m.faqs ∧
       (3/10 : ℚ) ≤ combinedScore (preprocess q.data) r.faq ∧
       (∀ f ∈ m.faqs,
          combinedScore (preprocess q.data) f ≤ combinedScore (preprocess q.data) r.faq) ∧
       r.confidence = pyRound2 (combinedScore (preprocess q.data) r.faq) ∧
       r.category = r.faq.category) ∧
    (find_best_match m q (3/10) = none →
       ∀ f ∈ m.faqs, combinedScore (preprocess q.data) f < 3/10) := by
  obtain ⟨h1, h2, h3⟩ := bestFold_inv (preprocess q.data) m.faqs
  constructor
  · intro r hr
    simp only [find_best_match] at hr
    by_cases hth : (3:ℚ)/10 ≤ (m.faqs.foldl (bestStep (preprocess q.data)) (none, 0)).2
    · rw [if_pos hth] at hr
      rcases hmap : (m.faqs.foldl (bestStep (preprocess q.data)) (none, 0)).1 with _ | f
      · rw [hmap] at hr; simp at hr
      · rw [hmap] at hr
        simp only [Option.map_some'] at hr
        obtain ⟨hsc, i, hi, hget, _⟩ := h3 f hmap
        have hmem : f ∈ m.faqs := hget ▸ m.faqs.get_mem i hi
        injection hr with hr
        subst hr
        refine ⟨hmem, ?_, ?_, ?_, rfl⟩
        · rw [← hsc]; exact hth
        · intro g hg
          rw [← hsc]; exact h1 g hg
        · rw [← hsc]
    · rw [if_neg hth] at hr
      exact absurd hr (by simp)
  · intro hnone f hf
    simp only [find_best_match] at hnone
    by_cases hth : (3:ℚ)/10 ≤ (m.faqs.foldl (bestStep (preprocess q.data)) (none, 0)).2
    · rw [if_pos hth] at hnone
      rcases hmap : (m.faqs.foldl (bestStep (preprocess q.data)) (none, 0)).1 with _ | g
      · have h0 := h2 hmap
        rw [h0] at hth
        norm_num at hth
      · rw [hmap] at hnone; simp at hnone
    · exact lt_of_le_of_lt (h1 f hf) (lt_of_not_le hth)

set_option maxRecDepth 1000000 in
set_option maxHeartbeats 4000000 in
/-- Witness for C3: `"hello"` against the real catalog selects the greeting
entry with confidence `0.63`. -/
theorem find_best_match_spec_witness :
    find_best_match faq_matcher "hello" (3/10) = some ⟨faqEntry1, 63/100, "greeting"⟩ ∧
    (faqEntry1 ∈ faq_matcher.faqs ∧
     (3/10 : ℚ) ≤ combinedScore (preprocess "hello".data) faqEntry1 ∧
     (∀ f ∈ faq_matcher.faqs,
        combinedScore (preprocess "hello".data) f ≤ combinedScore (preprocess "hello".data) faqEntry1) ∧
     (63/100 : ℚ) = pyRound2 (combinedScore (preprocess "hello".data) faqEntry1) ∧
     "greeting" = faqEntry1.category) := by
  have hr : find_best_match faq_matcher "hello" (3/10) = some ⟨faqEntry1, 63/100, "greeting"⟩ := by
    decide
  exact ⟨hr, (find_best_match_spec faq_matcher "hello").1 _ hr⟩

/-- C10: the entry `find_best_match` returns is the first entry of the
catalog attaining the maximal combined score: every earlier entry scores
strictly less (the strict `>` comparison never replaces an equal-scoring
earlier entry), so the result is a function of the query and the catalog
order alone. -/
theorem find_best_match_earliest_tie (m : FAQMatcher) (q : String) (r : MatchResult)
    (h : find_best_match m q (3/10) = some r) :
    ∃ (i : Nat) (hi : i < m.faqs.length),
      m.faqs.get ⟨i, hi⟩ = r.faq ∧
      ∀ (j : Nat) (hj : j < m.faqs.length), j < i →
        combinedScore (preprocess q.data) (m.faqs.get ⟨j, hj⟩) <
          combinedScore (preprocess q.data) r.faq := by
  obtain ⟨_, _, h3⟩ := bestFold_inv (preprocess q.data) m.faqs
  simp only [find_best_match] at h
  by_cases hth : (3:ℚ)/10 ≤ (m.faqs.foldl (bestStep (preprocess q.data)) (none, 0)).2
  · rw [if_pos hth] at h
    rcases hmap : (m.faqs.foldl (bestStep (preprocess q.data)) (none, 0)).1 with _ | f
    · rw [hmap] at h; simp at h
    · rw [hmap] at h
      simp only [Option.map_some'] at h
      obtain ⟨hsc, i, hi, hget, hfirst⟩ := h3 f hmap
      injection h with h
      subst h
      exact ⟨i, hi, hget, fun j hj hji => hsc ▸ hfirst j hj hji⟩
  · rw [if_neg hth] at h
    exact absurd h (by simp)

/-- First entry of the tie pair of the C10 witness. -/
def tieEntryA : FAQ := ⟨1, "greet", "hello", "A", "A", "A", ["hello"], ["hello"]⟩

/-- Second entry of the tie pair: identical in every field the scorer reads. -/
def tieEntryB : FAQ := ⟨2, "greet", "hello", "B", "B", "B", ["hello"], ["hello"]⟩

/-- A two-entry catalog whose entries tie on every query. -/
def tieMatcher : FAQMatcher := ⟨[tieEntryA, tieEntryB]⟩

/-- Witness for C10: on a catalog with two equal-scoring entries the first
one is returned. -/
theorem find_best_match_earliest_tie_witness :
    find_best_match tieMatcher "hello" (3/10) = some ⟨tieEntryA, 1, "greet"⟩ ∧
    combinedScore (preprocess "hello".data) tieEntryA =
      combinedScore (preprocess "hello".data) tieEntryB ∧
    ∃ (i : Nat) (hi : i < tieMatcher.faqs.length),
      tieMatcher.faqs.get ⟨i, hi⟩ = tieEntryA ∧
      ∀ (j : Nat) (hj : j < tieMatcher.faqs.length), j < i →
        combinedScore (preprocess "hello".data) (tieMatcher.faqs.get ⟨j, hj⟩) <
          combinedScore (preprocess "hello".data) tieEntryA := by
  have hr : find_best_match tieMatcher "hello" (3/10) = some ⟨tieEntryA, 1, "greet"⟩ := by
    decide
  exact ⟨hr, by decide, find_best_match_earliest_tie tieMatcher "hello" _ hr⟩

/-! ## The stable descending sort of `find_multiple_matches` -/

/-- `insertDesc` inserts: the result is a permutation of consing. -/
theorem insertDesc_perm (x : MatchResult) (l : List MatchResult) :
    List.Perm (insertDesc x l) (x :: l) := by
  induction l with
  | nil => exact List.Perm.refl _
  | cons y ys ih =>
    unfold insertDesc
    by_cases h : x.confidence < y.confidence
    · rw [if_pos h]
      exact List.Perm.trans (ih.cons y) (List.Perm.swap x y ys)
    · rw [if_neg h]

/-- `sortDesc` permutes its input. -/
theorem sortDesc_perm (l : List MatchResult) : List.Perm (sortDesc l) l := by
  induction l with
  | nil => exact List.Perm.refl _
  | cons x xs ih =>
    have hs : sortDesc (x :: xs) = insertDesc x (sortDesc xs) := rfl
    rw [hs]
    exact List.Perm.trans (insertDesc_perm _ _) (ih.cons x)

/-- `insertDesc` preserves the descending-confidence invariant. -/
theorem insertDesc_pairwise (x : MatchResult) (l : List MatchResult)
    (h : List.Pairwise (fun a b => b.confidence ≤ a.confidence) l) :
    List.Pairwise (fun a b => b.confidence ≤ a.confidence) (insertDesc x l) := by
  induction l with
  | nil => simp [insertDesc]
  | cons y ys ih =>
    unfold insertDesc
    rcases List.pairwise_cons.mp h with ⟨hy, hys⟩
    by_cases hlt : x.confidence < y.confidence
    · rw [if_pos hlt]
      refine List.pairwise_cons.mpr ⟨?_, ih hys⟩
      intro z hz
      rcases List.mem_cons.mp ((insertDesc_perm x ys).mem_iff.mp hz) with rfl | hzys
      · exact le_of_lt hlt
      · exact hy z hzys
    · rw [if_neg hlt]
      refine List.pairwise_cons.mpr ⟨?_, h⟩
      intro z hz
      rcases List.mem_cons.mp hz with rfl | hzys
      · exact le_of_not_lt hlt
      · exact le_trans (hy z hzys) (le_of_not_lt hlt)

/-- `sortDesc` sorts by descending confidence. -/
theorem sortDesc_pairwise (l : List MatchResult) :
    List.Pairwise (fun a b => b.confidence ≤ a.confidence) (sortDesc l) := by
  induction l with
  | nil => simp [sortDesc]
  | cons x xs ih => exact insertDesc_pairwise x _ ih

/-- Stability of `insertDesc` seen through a confidence class: an element of
class `c` goes in front of the class (everything it skips has strictly larger
confidence), an element of another class leaves the class untouched. -/
theorem insertDesc_filter (x : MatchResult) (l : List MatchResult) (c : ℚ) :
    (insertDesc x l).filter (fun mr => mr.confidence = c) =
      if x.confidence = c then x :: l.filter (fun mr => mr.confidence = c)
      else l.filter (fun mr => mr.confidence = c) := by
  induction l with
  | nil =>
    unfold insertDesc
    by_cases h : x.confidence = c <;> simp [h]
  | cons y ys ih =>
    unfold insertDesc
    by_cases hlt : x.confidence < y.confidence
    · rw [if_pos hlt]
      by_cases hx : x.confidence = c
      · have hy : ¬ (y.confidence = c) := by
          intro hy
          rw [hx, hy] at hlt
          exact lt_irrefl c hlt
        rw [List.filter_cons_of_neg (by simp [hy]), ih, if_pos hx, if_pos hx,
            List.filter_cons_of_neg (by simp [hy])]
      · by_cases hy : y.confidence = c
        · rw [List.filter_cons_of_pos (by simp [hy]), ih, if_neg hx, if_neg hx,
              List.filter_cons_of_pos (by simp [hy])]
        · rw [List.filter_cons_of_neg (by simp [hy]), ih, if_neg hx, if_neg hx,
              List.filter_cons_of_neg (by simp [hy])]
    · rw [if_neg hlt]
      by_cases hx : x.confidence = c
      · rw [if_pos hx, List.filter_cons_of_pos (by simp [hx])]
      · rw [if_neg hx, List.filter_cons_of_neg (by simp [hx])]

/-- The per-class content of `sortDesc` equals that of its input, in order. -/
theorem sortDesc_filter (l : List MatchResult) (c : ℚ) :
    (sortDesc l).filter (fun mr => mr.confidence = c) =
      l.filter (fun mr => mr.confidence = c) := by
  induction l with
  | nil => rfl
  | cons x xs ih =>
    have hs : sortDesc (x :: xs) = insertDesc x (sortDesc xs) := rfl
    rw [hs, insertDesc_filter, ih]
    by_cases hx : x.confidence = c
    · rw [if_pos hx, List.filter_cons_of_pos (by simp [hx])]
    · rw [if_neg hx, List.filter_cons_of_neg (by simp [hx])]

/-- Rounding to hundredths never crosses a threshold that is itself a whole
number of hundredths. -/
theorem pyRound2_ge_hundredths (n : ℤ) (q : ℚ) (h : (n : ℚ)/100 ≤ q) :
    (n : ℚ)/100 ≤ pyRound2 q := by
  have hfl : n ≤ (q * 100).floor := by
    rw [show (q * 100).floor = ⌊q * 100⌋ from rfl]
    exact Int.le_floor.mpr (by linarith)
  have hr : n ≤ roundHalfEven (q * 100) := by
    unfold roundHalfEven
    split
    · exact hfl
    · split
      · omega
      · split
        · exact hfl
        · omega
  unfold pyRound2
  have : (n : ℚ) ≤ (roundHalfEven (q * 100) : ℚ) := by exact_mod_cast hr
  linarith

/-- C7 amended: for a nonnegative `top_k` and a threshold that is a whole
number of hundredths, `find_multiple_matches` returns at most `top_k`
entries, each with confidence at least the threshold, in descending
confidence order, and inside every confidence class the entries keep the
catalog order of the eligible list. -/
theorem find_multiple_matches_amended (m : FAQMatcher) (q : String) (k : ℤ) (t : ℚ)
    (hk : 0 ≤ k) (ht : ∃ n : ℤ, t = (n : ℚ)/100) :
    ((find_multiple_matches m q k t).length : ℤ) ≤ k ∧
    (∀ mr ∈ find_multiple_matches m q k t, t ≤ mr.confidence) ∧
    List.Pairwise (fun a b => b.confidence ≤ a.confidence) (find_multiple_matches m q k t) ∧
    (∀ c : ℚ,
       (find_multiple_matches m q k t).filter (fun mr => mr.confidence = c) <+:
       (eligibleMatches m (preprocess q.data) t).filter (fun mr => mr.confidence = c)) := by
  have hdef : find_multiple_matches m q k t =
      pySlice (sortDesc (eligibleMatches m (preprocess q.data) t)) k := rfl
  refine ⟨?_, ?_, ?_, ?_⟩
  · rw [hdef]
    unfold pySlice
    rw [if_neg (not_lt.mpr hk)]
    have hle : ((sortDesc (eligibleMatches m (preprocess q.data) t)).take k.toNat).length
        ≤ k.toNat := by
      rw [List.length_take]
      exact Nat.min_le_left _ _
    calc (((sortDesc (eligibleMatches m (preprocess q.data) t)).take k.toNat).length : ℤ)
        ≤ (k.toNat : ℤ) := by exact_mod_cast hle
    _ = k := Int.toNat_of_nonneg hk
  · intro mr hmr
    rw [hdef] at hmr
    unfold pySlice at hmr
    rw [if_neg (not_lt.mpr hk)] at hmr
    have hmem : mr ∈ sortDesc (eligibleMatches m (preprocess q.data) t) :=
      List.mem_of_mem_take hmr
    have hmemE : mr ∈ eligibleMatches m (preprocess q.data) t :=
      (sortDesc_perm _).mem_iff.mp hmem
    obtain ⟨f, hf, hsome⟩ := List.mem_filterMap.mp hmemE
    dsimp only at hsome
    by_cases hsc : t ≤ combinedScore (preprocess q.data) f
    · rw [if_pos hsc] at hsome
      injection hsome with hsome
      obtain ⟨n, rfl⟩ := ht
      have := pyRound2_ge_hundredths n _ hsc
      rw [← hsome]
      exact this
    · rw [if_neg hsc] at hsome
      exact absurd hsome (by simp)
  · rw [hdef]
    unfold pySlice
    rw [if_neg (not_lt.mpr hk)]
    exact (sortDesc_pairwise _).sublist (List.take_sublist _ _)
  · intro c
    rw [hdef]
    unfold pySlice
    rw [if_neg (not_lt.mpr hk)]
    have hpre : (sortDesc (eligibleMatches m (preprocess q.data) t)).take k.toNat <+:
        sortDesc (eligibleMatches m (preprocess q.data) t) := List.take_prefix _ _
    have hfil := hpre.filter (fun mr => decide (mr.confidence = c))
    rw [sortDesc_filter] at hfil
    exact hfil

set_option maxRecDepth 1000000 in
set_option maxHeartbeats 4000000 in
/-- C7 counterexample: with `top_k = -1` (Python slicing counts from the
end) the call returns 21 entries, not "at most −1"; and with the threshold
`59/275` (the exact combined score of the greeting entry on `"hi"`) the
returned entry's confidence `0.21` is below the threshold, because the
stored confidence is the score rounded to hundredths while the filter uses
the raw score. -/
theorem find_multiple_matches_cex :
    ¬ (((find_multiple_matches faq_matcher "" (-1) 0).length : ℤ) ≤ -1) ∧
    ∃ mr ∈ find_multiple_matches faq_matcher "hi" 22 ((59 : ℚ)/275),
      mr.confidence < (59 : ℚ)/275 := by
  constructor
  · decide
  · decide

/-- Witness for C7 at the program's default parameters (`top_k = 3`,
`threshold = 0.25`). -/
theorem find_multiple_matches_amended_witness :
    (((find_multiple_matches faq_matcher "hello" 3 ((1 : ℚ)/4)).length : ℤ) ≤ 3) ∧
    (∀ mr ∈ find_multiple_matches faq_matcher "hello" 3 ((1 : ℚ)/4),
       (1 : ℚ)/4 ≤ mr.confidence) ∧
    List.Pairwise (fun a b => b.confidence ≤ a.confidence)
      (find_multiple_matches faq_matcher "hello" 3 ((1 : ℚ)/4)) ∧
    (∀ c : ℚ,
       (find_multiple_matches faq_matcher "hello" 3 ((1 : ℚ)/4)).filter
           (fun mr => mr.confidence = c) <+:
       (eligibleMatches faq_matcher (preprocess "hello".data) ((1 : ℚ)/4)).filter
           (fun mr => mr.confidence = c)) :=
  find_multiple_matches_amended faq_matcher "hello" 3 ((1 : ℚ)/4) (by norm_num)
    ⟨25, by norm_num⟩

/-! ## Template shape: every brace of a catalog template delimits a token

`fill` substitutes by repeated `str.replace`.  To reason about it, a template
is cut into segments — brace-free literal pieces and `{name}` tokens — and
the substitution is tracked segment by segment. -/

/-- A template segment: a literal piece or a `{name}` token. -/
inductive Seg where
  | lit (cs : List Char)
  | tok (name : List Char)
deriving DecidableEq

/-- The text of a segment. -/
def segStr : Seg → List Char
  | .lit cs => cs
  | .tok name => '{' :: (name ++ ['}'])

/-- The text of a segment list. -/
def flattenSegs (segs : List Seg) : List Char := (segs.map segStr).join

/-- A string with neither brace character. -/
def braceFreeL (cs : List Char) : Bool := !cs.contains '{' && !cs.contains '}'

/-- One step of the segment scanner: outside a token, a `{` opens one and any
other character is a literal; inside a token (the name is accumulated
reversed), a `}` closes it. -/
def segsOfStep (st : Option (List Char) × List Seg) (c : Char) :
    Option (List Char) × List Seg :=
  match st.1 with
  | none => if c = '{' then (some [], st.2) else (none, Seg.lit [c] :: st.2)
  | some nm => if c = '}' then (none, Seg.tok nm.reverse :: st.2) else (some (c :: nm), st.2)

/-- Cut a string into segments (best effort: an unclosed `{` falls back to a
literal holding the brace, which the well-formedness check rejects). -/
def segsOf (s : List Char) : List Seg :=
  match (s.foldl segsOfStep (none, [])) with
  | (none, acc) => acc.reverse
  | (some nm, acc) => (Seg.lit ('{' :: nm.reverse) :: acc).reverse

/-- Well-formed segments: every literal piece and every token name is
brace-free. -/
def segsOk (segs : List Seg) : Bool :=
  segs.all (fun seg => match seg with
    | .lit cs => braceFreeL cs
    | .tok nm => braceFreeL nm)

/-- A template is well shaped when its segment cut is brace-free and
reproduces it exactly. -/
def templateOk (t : String) : Bool :=
  segsOk (segsOf t.data) && (flattenSegs (segsOf t.data) = t.data)

/-- The effect of one `str.replace` pass on a segment: the matching token
becomes a literal holding the value. -/
def replaceSeg (k v : List Char) : Seg → Seg
  | .lit cs => .lit cs
  | .tok m => if m = k then .lit v else .tok m

/-- The token names of the placeholder map (C9's "recognized" tokens). -/
def recognizedKeys : List String :=
  ["university_name", "university_name_ar", "university_name_fr", "city",
   "city_ar", "city_fr", "portal_url", "website", "email_general",
   "email_registrar", "email_finance", "email_it", "email_student",
   "email_financial_aid", "email_housing", "email_library", "email_academic",
   "phone_main", "address"]

/-- Brace-freedom of an optional snapshot field. -/
def braceFreeO (o : Option String) : Bool :=
  match o with
  | none => true
  | some s => braceFreeL s.data

/-- Brace-freedom of a whole snapshot (vacuous when there is none). -/
def braceFreeUniv (u : Option University) : Bool :=
  match u with
  | none => true
  | some uu =>
    braceFreeL uu.name.data && braceFreeO uu.name_ar && braceFreeO uu.city &&
    braceFreeO uu.website && braceFreeO uu.email && braceFreeO uu.phone &&
    braceFreeO uu.address

/-- The brace-delimited occurrence of a token name, on codepoint lists. -/
def tokenL (k : List Char) : List Char := '{' :: k ++ ['}']

/-- `tokenOf` on a `String` is `tokenL` of its codepoints. -/
theorem tokenOf_eq (k : String) : tokenOf k = tokenL k.data := rfl

/-- A token occurrence cannot start at a non-`{` character. -/
theorem tokenL_isPrefixOf_cons_false (k : List Char) (c : Char) (xs : List Char)
    (hc : c ≠ '{') : (tokenL k).isPrefixOf (c :: xs) = false := by
  have hb : ('{' == c) = false := beq_eq_false_iff_ne.mpr (fun h => hc h.symm)
  rw [show tokenL k = '{' :: (k ++ ['}']) from rfl, List.isPrefixOf_cons₂, hb,
    Bool.false_and]

/-- A list is a prefix of itself followed by anything. -/
theorem isPrefixOf_append_self (l r : List Char) : l.isPrefixOf (l ++ r) = true := by
  induction l with
  | nil => simp
  | cons c cs ih => simp [List.isPrefixOf_cons₂, ih]

/-- Two distinct brace-free names followed by `}` never align: `k}` is not a
prefix of `m}…` when `k ≠ m`. -/
theorem key_append_isPrefixOf_false (k : List Char) :
    ∀ (m rest : List Char), k.contains '}' = false → m.contains '}' = false →
    k ≠ m → (k ++ ['}']).isPrefixOf (m ++ ['}'] ++ rest) = false := by
  induction k with
  | nil =>
    intro m rest _ hm hne
    cases m with
    | nil => exact absurd rfl hne
    | cons b m' =>
      have hb : ('}' == b) = false := by
        simp only [List.contains_cons, Bool.or_eq_false_iff] at hm
        exact hm.1
      simp only [List.nil_append, List.cons_append, List.isPrefixOf_cons₂, hb,
        Bool.false_and]
  | cons a k' ih =>
    intro m rest hk hm hne
    simp only [List.contains_cons, Bool.or_eq_false_iff] at hk
    cases m with
    | nil =>
      have ha : (a == '}') = false :=
        beq_eq_false_iff_ne.mpr (fun h => (beq_eq_false_iff_ne.mp hk.1) h.symm)
      simp only [List.nil_append, List.cons_append, List.isPrefixOf_cons₂, ha,
        Bool.false_and]
    | cons b m' =>
      simp only [List.contains_cons, Bool.or_eq_false_iff] at hm
      by_cases hab : a = b
      · subst hab
        have htail : (k' ++ ['}']).isPrefixOf (m' ++ ['}'] ++ rest) = false :=
          ih m' rest hk.2 hm.2 (fun h => hne (by rw [h]))
        simp only [List.cons_append, List.isPrefixOf_cons₂, htail, Bool.and_false]
      · have hb : (a == b) = false := beq_eq_false_iff_ne.mpr hab
        simp only [List.cons_append, List.isPrefixOf_cons₂, hb, Bool.false_and]

/-- `str.replace` walks over a brace-free piece untouched. -/
theorem replaceList_braceFree_append (k v : List Char) :
    ∀ (l rest : List Char), l.contains '{' = false →
    replaceList (tokenL k) v (l ++ rest) = l ++ replaceList (tokenL k) v rest := by
  intro l
  induction l with
  | nil => intro rest _; rfl
  | cons c cs ih =>
    intro rest hl
    simp only [List.contains_cons, Bool.or_eq_false_iff] at hl
    have hc : c ≠ '{' := fun h => (beq_eq_false_iff_ne.mp hl.1) h.symm
    rw [List.cons_append, replaceList_cons, if_neg, ih rest hl.2, List.cons_append]
    intro hand
    rw [tokenL_isPrefixOf_cons_false k c (cs ++ rest) hc] at hand
    exact Bool.false_ne_true hand.2

/-- `str.replace` substitutes the value at an exact token occurrence. -/
theorem replaceList_token_match (k v rest : List Char) :
    replaceList (tokenL k) v (tokenL k ++ rest) = v ++ replaceList (tokenL k) v rest := by
  rw [show tokenL k ++ rest = '{' :: ((k ++ ['}']) ++ rest) from by simp [tokenL]]
  rw [replaceList_cons, if_pos]
  · rw [show ('{' :: ((k ++ ['}']) ++ rest)).drop (tokenL k).length
        = (tokenL k ++ rest).drop (tokenL k).length from by simp [tokenL],
      List.drop_left]
  · constructor
    · simp [tokenL]
    · rw [show ('{' :: ((k ++ ['}']) ++ rest)) = tokenL k ++ rest from by simp [tokenL]]
      exact isPrefixOf_append_self _ _
/-- `str.replace` walks over a different token untouched. -/
theorem replaceList_token_other (k v m rest : List Char)
    (hkm : k ≠ m) (hk : k.contains '}' = false)
    (hm1 : m.contains '{' = false) (hm2 : m.contains '}' = false) :
    replaceList (tokenL k) v (tokenL m ++ rest)
      = tokenL m ++ replaceList (tokenL k) v rest := by
  rw [show tokenL m ++ rest = '{' :: ((m ++ ['}']) ++ rest) from by simp [tokenL]]
  rw [replaceList_cons, if_neg]
  · have hmid : replaceList (tokenL k) v ((m ++ ['}']) ++ rest)
        = m ++ replaceList (tokenL k) v (['}'] ++ rest) := by
      rw [show (m ++ ['}']) ++ rest = m ++ (['}'] ++ rest) from by simp]
      exact replaceList_braceFree_append k v m (['}'] ++ rest) hm1
    have hbrace : replaceList (tokenL k) v (['}'] ++ rest)
        = '}' :: replaceList (tokenL k) v rest := by
      rw [show (['}'] : List Char) ++ rest = '}' :: rest from rfl]
      rw [replaceList_cons, if_neg]
      intro hand
      rw [tokenL_isPrefixOf_cons_false k '}' rest (by decide)] at hand
      exact Bool.false_ne_true hand.2
    rw [hmid, hbrace]
    simp [tokenL]
  · intro hand
    have : (tokenL k).isPrefixOf ('{' :: ((m ++ ['}']) ++ rest)) = false := by
      rw [show tokenL k = '{' :: (k ++ ['}']) from rfl, List.isPrefixOf_cons₂]
      rw [key_append_isPrefixOf_false k m rest hk hm2 hkm]
      simp
    rw [this] at hand
    exact Bool.false_ne_true hand.2

/-- Unpack the two sides of `braceFreeL`. -/
theorem braceFreeL_eq (cs : List Char) (h : braceFreeL cs = true) :
    cs.contains '{' = false ∧ cs.contains '}' = false := by
  rw [braceFreeL, Bool.and_eq_true, Bool.not_eq_true', Bool.not_eq_true'] at h
  exact h

/-- Pack the two sides of `braceFreeL`. -/
theorem braceFreeL_intro (cs : List Char) (h1 : cs.contains '{' = false)
    (h2 : cs.contains '}' = false) : braceFreeL cs = true := by
  rw [braceFreeL, h1, h2]
  rfl

/-- A token occurrence cannot sit inside or start within a brace-free piece:
searching may skip it entirely. -/
theorem isSub_tokenL_append (k : List Char) :
    ∀ (l rest : List Char), l.contains '{' = false →
    isSub (tokenL k) (l ++ rest) = isSub (tokenL k) rest := by
  intro l
  induction l with
  | nil => intro rest _; rfl
  | cons c cs ih =>
    intro rest hl
    simp only [List.contains_cons, Bool.or_eq_false_iff] at hl
    have hc : c ≠ '{' := fun h => (beq_eq_false_iff_ne.mp hl.1) h.symm
    rw [List.cons_append]
    show ((tokenL k).isPrefixOf (c :: (cs ++ rest)) || isSub (tokenL k) (cs ++ rest))
      = isSub (tokenL k) rest
    rw [tokenL_isPrefixOf_cons_false k c (cs ++ rest) hc, Bool.false_or, ih rest hl.2]

/-- No token occurrence of `k` survives in the text of well-formed segments
whose token names all differ from `k`. -/
theorem isSub_tokenL_flattenSegs_false (k : List Char) (hk : k.contains '}' = false) :
    ∀ (segs : List Seg), segsOk segs = true →
    (∀ m, Seg.tok m ∈ segs → m ≠ k) →
    isSub (tokenL k) (flattenSegs segs) = false := by
  intro segs
  induction segs with
  | nil => intro _ _; rfl
  | cons sg rest ih =>
    intro hok hne
    rw [segsOk, List.all_cons, Bool.and_eq_true] at hok
    obtain ⟨hsg, hrest⟩ := hok
    cases sg with
    | lit cs =>
      obtain hsg := braceFreeL_eq cs hsg
      have hfl : flattenSegs (Seg.lit cs :: rest) = cs ++ flattenSegs rest := by
        simp [flattenSegs, segStr]
      rw [hfl, isSub_tokenL_append k cs (flattenSegs rest) hsg.1]
      exact ih hrest (fun m hm => hne m (List.mem_cons_of_mem _ hm))
    | tok m =>
      obtain hsg := braceFreeL_eq m hsg
      have hfl : flattenSegs (Seg.tok m :: rest)
          = '{' :: ((m ++ ['}']) ++ flattenSegs rest) := by
        simp [flattenSegs, segStr]
      rw [hfl]
      show ((tokenL k).isPrefixOf ('{' :: ((m ++ ['}']) ++ flattenSegs rest))
            || isSub (tokenL k) ((m ++ ['}']) ++ flattenSegs rest)) = false
      have h1 : (tokenL k).isPrefixOf ('{' :: ((m ++ ['}']) ++ flattenSegs rest)) = false := by
        rw [show tokenL k = '{' :: (k ++ ['}']) from rfl, List.isPrefixOf_cons₂]
        rw [key_append_isPrefixOf_false k m (flattenSegs rest) hk hsg.2
          (fun h => (hne m (List.mem_cons_self _ _)) h.symm)]
        simp
      have h2 : isSub (tokenL k) ((m ++ ['}']) ++ flattenSegs rest) = false := by
        rw [show (m ++ ['}']) ++ flattenSegs rest = m ++ ('}' :: flattenSegs rest) from by simp]
        rw [isSub_tokenL_append k m ('}' :: flattenSegs rest) hsg.1]
        show ((tokenL k).isPrefixOf ('}' :: flattenSegs rest)
              || isSub (tokenL k) (flattenSegs rest)) = false
        rw [tokenL_isPrefixOf_cons_false k '}' (flattenSegs rest) (by decide), Bool.false_or]
        exact ih hrest (fun m' hm' => hne m' (List.mem_cons_of_mem _ hm'))
      rw [h1, h2]
      rfl

/-- One `str.replace` pass over well-formed segments rewrites exactly the
matching tokens and preserves well-formedness. -/
theorem replaceList_flattenSegs (k v : List Char) (hkbf : braceFreeL k = true)
    (hvbf : braceFreeL v = true) :
    ∀ (segs : List Seg), segsOk segs = true →
    replaceList (tokenL k) v (flattenSegs segs)
      = flattenSegs (segs.map (replaceSeg k v)) ∧
    segsOk (segs.map (replaceSeg k v)) = true := by
  obtain hkbf := braceFreeL_eq k hkbf
  obtain hvbf := braceFreeL_eq v hvbf
  intro segs
  induction segs with
  | nil =>
    intro _
    refine ⟨?_, rfl⟩
    rfl
  | cons sg rest ih =>
    intro hok
    rw [segsOk, List.all_cons, Bool.and_eq_true] at hok
    obtain ⟨hsg, hrest⟩ := hok
    obtain ⟨ih1, ih2⟩ := ih hrest
    cases sg with
    | lit cs =>
      obtain hsg := braceFreeL_eq cs hsg
      constructor
      · rw [show flattenSegs (Seg.lit cs :: rest) = cs ++ flattenSegs rest from by
            simp [flattenSegs, segStr]]
        rw [replaceList_braceFree_append k v cs (flattenSegs rest) hsg.1, ih1]
        simp [flattenSegs, segStr, replaceSeg]
      · rw [List.map_cons, segsOk, List.all_cons]
        simp only [replaceSeg]
        rw [Bool.and_eq_true]
        exact ⟨braceFreeL_intro cs hsg.1 hsg.2, ih2⟩
    | tok m =>
      obtain hsg := braceFreeL_eq m hsg
      have hfl : flattenSegs (Seg.tok m :: rest) = tokenL m ++ flattenSegs rest := by
        simp [flattenSegs, segStr, tokenL]
      by_cases hm : m = k
      · subst hm
        constructor
        · rw [hfl, replaceList_token_match m v (flattenSegs rest), ih1]
          simp [flattenSegs, segStr, replaceSeg]
        · rw [List.map_cons, segsOk, List.all_cons]
          simp only [replaceSeg, if_pos rfl]
          rw [Bool.and_eq_true]
          exact ⟨braceFreeL_intro v hvbf.1 hvbf.2, ih2⟩
      · constructor
        · rw [hfl, replaceList_token_other k v m (flattenSegs rest)
              (fun h => hm h.symm) hkbf.2 hsg.1 hsg.2, ih1]
          simp only [List.map_cons, replaceSeg, if_neg hm]
          simp [flattenSegs, segStr, tokenL]
        · rw [List.map_cons, segsOk, List.all_cons]
          simp only [replaceSeg, if_neg hm]
          rw [Bool.and_eq_true]
          exact ⟨braceFreeL_intro m hsg.1 hsg.2, ih2⟩

/-- After one replacement pass, a surviving token was already there and is
not the replaced key. -/
theorem tok_mem_map_replaceSeg (k v : List Char) (segs : List Seg) (m : List Char)
    (h : Seg.tok m ∈ segs.map (replaceSeg k v)) : Seg.tok m ∈ segs ∧ m ≠ k := by
  obtain ⟨sg, hsg, heq⟩ := List.mem_map.mp h
  cases sg with
  | lit cs => simp [replaceSeg] at heq
  | tok m' =>
    by_cases hm' : m' = k
    · rw [replaceSeg, if_pos hm'] at heq
      cases heq
    · rw [replaceSeg, if_neg hm'] at heq
      injection heq with heq
      subst heq
      exact ⟨hsg, hm'⟩

/-- The whole `fill` fold over the placeholder map, tracked on segments:
the result is the flattening of the rewritten segments, well-formedness is
preserved, and a surviving token matches none of the processed keys. -/
theorem fill_fold_flattenSegs (ph : List (String × String)) :
    ∀ (segs : List Seg), segsOk segs = true →
    (∀ kv ∈ ph, braceFreeL kv.1.data = true ∧ braceFreeL kv.2.data = true) →
    ph.foldl (fun t kv => replaceList (tokenOf kv.1) kv.2.data t) (flattenSegs segs) =
      flattenSegs (ph.foldl (fun sg kv => sg.map (replaceSeg kv.1.data kv.2.data)) segs) ∧
    segsOk (ph.foldl (fun sg kv => sg.map (replaceSeg kv.1.data kv.2.data)) segs) = true ∧
    (∀ m, Seg.tok m ∈ ph.foldl (fun sg kv => sg.map (replaceSeg kv.1.data kv.2.data)) segs →
       Seg.tok m ∈ segs ∧ ∀ kv ∈ ph, m ≠ kv.1.data) := by
  induction ph with
  | nil =>
    intro segs hok _
    exact ⟨rfl, hok, fun m hm => ⟨hm, by simp⟩⟩
  | cons kv ph' ih =>
    intro segs hok hbf
    have hkv := hbf kv (List.mem_cons_self _ _)
    obtain ⟨hstep, hstepok⟩ :=
      replaceList_flattenSegs kv.1.data kv.2.data hkv.1 hkv.2 segs hok
    have hbf' : ∀ kv' ∈ ph', braceFreeL kv'.1.data = true ∧ braceFreeL kv'.2.data = true :=
      fun kv' h => hbf kv' (List.mem_cons_of_mem _ h)
    obtain ⟨ih1, ih2, ih3⟩ := ih (segs.map (replaceSeg kv.1.data kv.2.data)) hstepok hbf'
    refine ⟨?_, ih2, ?_⟩
    · rw [List.foldl_cons, List.foldl_cons]
      rw [show replaceList (tokenOf kv.1) kv.2.data (flattenSegs segs)
          = flattenSegs (segs.map (replaceSeg kv.1.data kv.2.data)) from hstep]
      exact ih1
    · intro m hm
      rw [List.foldl_cons] at hm
      obtain ⟨hmem, hrest⟩ := ih3 m hm
      obtain ⟨hmem0, hne⟩ := tok_mem_map_replaceSeg kv.1.data kv.2.data segs m hmem
      refine ⟨hmem0, ?_⟩
      intro kv' hkv'
      rcases List.mem_cons.mp hkv' with rfl | h
      · exact hne
      · exact hrest kv' h

/-- The entry a successful `find_best_match` returns is a catalog entry. -/
theorem find_best_match_mem (m : FAQMatcher) (q : String) (r : MatchResult)
    (h : find_best_match m q (3/10) = some r) : r.faq ∈ m.faqs := by
  obtain ⟨_, _, h3⟩ := bestFold_inv (preprocess q.data) m.faqs
  simp only [find_best_match] at h
  by_cases hth : (3:ℚ)/10 ≤ (m.faqs.foldl (bestStep (preprocess q.data)) (none, 0)).2
  · rw [if_pos hth] at h
    rcases hmap : (m.faqs.foldl (bestStep (preprocess q.data)) (none, 0)).1 with _ | f
    · rw [hmap] at h; simp at h
    · rw [hmap] at h
      simp only [Option.map_some'] at h
      obtain ⟨_, i, hi, hget, _⟩ := h3 f hmap
      injection h with h
      subst h
      exact hget ▸ m.faqs.get_mem i hi
  · rw [if_neg hth] at h
    exact absurd h (by simp)

/-- Absence of a character is inherited by any list whose elements all come
from the larger one. -/
theorem contains_false_mono (l' l : List Char) (c : Char)
    (hsub : ∀ x ∈ l', x ∈ l) (h : l.contains c = false) : l'.contains c = false := by
  cases hcl : l'.contains c with
  | false => rfl
  | true =>
    have hmem : c ∈ l' := List.elem_iff.mp hcl
    have h2 : l.contains c = true := List.elem_iff.mpr (hsub c hmem)
    rw [h] at h2
    exact absurd h2 Bool.false_ne_true

/-- Brace-freedom of an append, from its parts. -/
theorem braceFreeL_append (l1 l2 : List Char) (h1 : braceFreeL l1 = true)
    (h2 : braceFreeL l2 = true) : braceFreeL (l1 ++ l2) = true := by
  obtain ⟨h1a, h1b⟩ := braceFreeL_eq l1 h1
  obtain ⟨h2a, h2b⟩ := braceFreeL_eq l2 h2
  have key : ∀ (c : Char), l1.contains c = false → l2.contains c = false →
      (l1 ++ l2).contains c = false := by
    intro c hc1 hc2
    cases hcl : (l1 ++ l2).contains c with
    | false => rfl
    | true =>
      rcases List.mem_append.mp (List.elem_iff.mp hcl) with h | h
      · have hb : l1.contains c = true := List.elem_iff.mpr h
        rw [hc1] at hb
        exact absurd hb Bool.false_ne_true
      · have hb : l2.contains c = true := List.elem_iff.mpr h
        rw [hc2] at hb
        exact absurd hb Bool.false_ne_true
  exact braceFreeL_intro _ (key '{' h1a h2a) (key '}' h1b h2b)

/-- Brace-freedom of a `String` append, from its parts. -/
theorem braceFreeS_append (a b : String) (ha : braceFreeL a.data = true)
    (hb : braceFreeL b.data = true) : braceFreeL (a ++ b).data = true := by
  rw [String.data_append]
  exact braceFreeL_append _ _ ha hb

/-- `pyOr` keeps brace-freedom. -/
theorem braceFreeL_pyOr (x : Option String) (d : String)
    (hx : braceFreeO x = true) (hd : braceFreeL d.data = true) :
    braceFreeL (pyOr x d).data = true := by
  cases x with
  | none => exact hd
  | some s =>
    show braceFreeL (if s = "" then d else s).data = true
    by_cases hs : s = ""
    · rw [if_pos hs]; exact hd
    · rw [if_neg hs]; exact hx

/-- `pyOrS` keeps brace-freedom. -/
theorem braceFreeL_pyOrS (s d : String) (hs : braceFreeL s.data = true)
    (hd : braceFreeL d.data = true) : braceFreeL (pyOrS s d).data = true := by
  show braceFreeL (if s = "" then d else s).data = true
  by_cases h0 : s = ""
  · rw [if_pos h0]; exact hd
  · rw [if_neg h0]; exact hs

/-- `afterLastChar` only keeps characters of its input. -/
theorem afterLastChar_sub (sep : Char) (s : List Char) :
    ∀ x ∈ afterLastChar sep s, x ∈ s := by
  intro x hx
  unfold afterLastChar at hx
  rw [List.mem_reverse] at hx
  have hx2 : x ∈ s.reverse := ((s.reverse.takeWhile_sublist (· ≠ sep)).mem hx)
  exact List.mem_reverse.mp hx2

/-- The derived email domain is brace-free when the email is. -/
theorem braceFree_domain (email : String) (he : braceFreeL email.data = true) :
    braceFreeL (if email.data.contains '@'
      then (afterLastChar '@' email.data).asString else "university.dz").data = true := by
  split
  · obtain ⟨h1, h2⟩ := braceFreeL_eq _ he
    exact braceFreeL_intro _
      (contains_false_mono _ _ _ (afterLastChar_sub '@' email.data) h1)
      (contains_false_mono _ _ _ (afterLastChar_sub '@' email.data) h2)
  · decide

set_option maxRecDepth 1000000 in
set_option maxHeartbeats 8000000 in
/-- Every catalog answer template is well shaped: each of its braces
delimits a token. -/
theorem catalogTemplatesOk :
    ∀ f ∈ FAQS, templateOk f.answer_en = true ∧ templateOk f.answer_ar = true ∧
      templateOk f.answer_fr = true := by decide

/-- Each recognized token name is brace-free. -/
theorem recognizedKeys_braceFree :
    ∀ key ∈ recognizedKeys, braceFreeL key.data = true := by decide

/-- The key column of the placeholder map is the fixed token list, with or
without a snapshot. -/
theorem build_placeholders_keys (u : Option University) :
    (build_placeholders u).map Prod.fst = recognizedKeys := by
  cases u with
  | none => rfl
  | some uu => rfl

/-- Unpack `templateOk`. -/
theorem templateOk_eq (t : String) (h : templateOk t = true) :
    segsOk (segsOf t.data) = true ∧ flattenSegs (segsOf t.data) = t.data := by
  rw [templateOk, Bool.and_eq_true] at h
  exact ⟨h.1, of_decide_eq_true h.2⟩

/-- The selected per-language template of a catalog entry is well shaped
whenever all three of its templates are. -/
theorem answerFor_templateOk (f : FAQ) (lang : String)
    (h : templateOk f.answer_en = true ∧ templateOk f.answer_ar = true ∧
      templateOk f.answer_fr = true) : templateOk (answerFor f lang) = true := by
  obtain ⟨he, ha, hf⟩ := h
  unfold answerFor
  by_cases h1 : lang = "ar"
  · simp only [if_pos h1]
    unfold pyOrS
    split
    · exact he
    · exact ha
  · simp only [if_neg h1]
    by_cases h2 : lang = "fr"
    · simp only [if_pos h2]
      unfold pyOrS
      split
      · exact he
      · exact hf
    · simp only [if_neg h2]
      unfold pyOrS
      split
      · exact he
      · exact he

/-- All placeholder values are brace-free when the snapshot's fields are. -/
theorem build_placeholders_values_braceFree (u : Option University)
    (hu : braceFreeUniv u = true) :
    ∀ kv ∈ build_placeholders u, braceFreeL kv.2.data = true := by
  cases u with
  | none => decide
  | some uu =>
    have h : (braceFreeL uu.name.data && braceFreeO uu.name_ar && braceFreeO uu.city &&
        braceFreeO uu.website && braceFreeO uu.email && braceFreeO uu.phone &&
        braceFreeO uu.address) = true := hu
    simp only [Bool.and_eq_true] at h
    obtain ⟨⟨⟨⟨⟨⟨hname, har⟩, hcity⟩, hweb⟩, hemail⟩, hphone⟩, haddr⟩ := h
    intro kv hkv
    simp only [build_placeholders, List.mem_cons, List.not_mem_nil, or_false] at hkv
    have hnamebf : braceFreeL (pyOrS uu.name "your university").data = true :=
      braceFreeL_pyOrS _ _ hname (by decide)
    have hcitybf : braceFreeL (pyOr uu.city "").data = true :=
      braceFreeL_pyOr _ _ hcity (by decide)
    have hemailbf : braceFreeL (pyOr uu.email "info@university.dz").data = true :=
      braceFreeL_pyOr _ _ hemail (by decide)
    have hdom := braceFree_domain (pyOr uu.email "info@university.dz") hemailbf
    rcases hkv with rfl|rfl|rfl|rfl|rfl|rfl|rfl|rfl|rfl|rfl|rfl|rfl|rfl|rfl|rfl|rfl|rfl|rfl|rfl
    · exact hnamebf
    · exact braceFreeL_pyOr _ _ har (by decide)
    · exact hnamebf
    · exact hcitybf
    · exact hcitybf
    · exact hcitybf
    · exact braceFreeL_pyOrS _ _ (braceFreeL_pyOr _ _ hweb (by decide)) (by decide)
    · exact braceFreeL_pyOr _ _ hweb (by decide)
    · exact hemailbf
    · exact braceFreeS_append _ _ (braceFreeS_append _ _ (by decide) (by decide)) hdom
    · exact braceFreeS_append _ _ (braceFreeS_append _ _ (by decide) (by decide)) hdom
    · exact braceFreeS_append _ _ (braceFreeS_append _ _ (by decide) (by decide)) hdom
    · exact braceFreeS_append _ _ (braceFreeS_append _ _ (by decide) (by decide)) hdom
    · exact braceFreeS_append _ _ (braceFreeS_append _ _ (by decide) (by decide)) hdom
    · exact braceFreeS_append _ _ (braceFreeS_append _ _ (by decide) (by decide)) hdom
    · exact braceFreeS_append _ _ (braceFreeS_append _ _ (by decide) (by decide)) hdom
    · exact braceFreeS_append _ _ (braceFreeS_append _ _ (by decide) (by decide)) hdom
    · exact braceFreeL_pyOrS _ _ (braceFreeL_pyOr _ _ hphone (by decide)) (by decide)
    · exact braceFreeL_pyOr _ _ haddr
        (braceFreeS_append _ _
          (braceFreeS_append _ _ (braceFreeS_append _ _ (by decide) hnamebf) (by decide))
          hcitybf)

set_option maxRecDepth 1000000 in
set_option maxHeartbeats 4000000 in
/-- C9 amended: for every query that produces a match, and every snapshot
whose string fields are free of brace characters (the no-snapshot case
included), the rendered answer contains no occurrence of any recognized
placeholder token: every `{token}` of the template is substituted at every
occurrence. -/
theorem search_faq_no_token_amended (q : String) (u : Option University)
    (hu : braceFreeUniv u = true) (ans qst : String) (conf : ℚ) (cat lang : String)
    (hfound : search_faq q u = SearchResult.found ans qst conf cat lang) :
    ∀ key ∈ recognizedKeys, isSub (tokenL key.data) ans.data = false := by
  intro key hkey
  rcases hbm : find_best_match faq_matcher q with _ | mtch
  · have hdef : search_faq q u =
        SearchResult.notFound (detect_language q) "No FAQ match found. AI will respond." := by
      unfold search_faq
      rw [hbm]
    rw [hdef] at hfound
    exact absurd hfound (by simp)
  · have hdef : search_faq q u = SearchResult.found
        (fill (answerFor mtch.faq (detect_language q)) (build_placeholders u))
        mtch.faq.question mtch.confidence mtch.category (detect_language q) := by
      unfold search_faq
      rw [hbm]
    rw [hdef] at hfound
    have h1 : fill (answerFor mtch.faq (detect_language q)) (build_placeholders u) = ans := by
      cases hfound
      rfl
    have hmem := find_best_match_mem faq_matcher q mtch hbm
    have htpl := catalogTemplatesOk mtch.faq hmem
    obtain ⟨hok0, hflat0⟩ :=
      templateOk_eq _ (answerFor_templateOk mtch.faq (detect_language q) htpl)
    have hvals := build_placeholders_values_braceFree u hu
    have hphbf : ∀ kv ∈ build_placeholders u,
        braceFreeL kv.1.data = true ∧ braceFreeL kv.2.data = true := by
      intro kv hkv
      refine ⟨?_, hvals kv hkv⟩
      have hk1 : kv.1 ∈ recognizedKeys :=
        build_placeholders_keys u ▸ List.mem_map_of_mem Prod.fst hkv
      exact recognizedKeys_braceFree _ hk1
    obtain ⟨hfold, hfoldok, htoks⟩ :=
      fill_fold_flattenSegs (build_placeholders u)
        (segsOf (answerFor mtch.faq (detect_language q)).data) hok0 hphbf
    have hansdata : ans.data =
        (build_placeholders u).foldl
          (fun t kv => replaceList (tokenOf kv.1) kv.2.data t)
          (answerFor mtch.faq (detect_language q)).data := by
      rw [← h1]
      rfl
    rw [hansdata, ← hflat0, hfold]
    apply isSub_tokenL_flattenSegs_false
    · exact (braceFreeL_eq _ (recognizedKeys_braceFree key hkey)).2
    · exact hfoldok
    · intro m hm heq
      obtain ⟨_, hall⟩ := htoks m hm
      have hkmem : key ∈ (build_placeholders u).map Prod.fst := by
        rw [build_placeholders_keys]
        exact hkey
      obtain ⟨kv, hkv, hfst⟩ := List.mem_map.mp hkmem
      exact (hall kv hkv) (heq.trans (congrArg String.data hfst.symm))

/-- The adversarial snapshot of the C9 counterexample: its name is itself a
recognized token occurrence. -/
def bracedUni : University :=
  ⟨1, "\x7buniversity_name\x7d", none, none, none, none, none, none, true⟩

set_option maxRecDepth 1000000 in
set_option maxHeartbeats 8000000 in
/-- C9 counterexample: with a snapshot whose name is the literal text
`\x7buniversity_name\x7d`, the query `"hello"` produces a match and the
rendered answer still contains the recognized token occurrence
`\x7buniversity_name\x7d` (`str.replace` never rescans replacement text), so
"the answer contains no occurrence of any recognized placeholder token"
fails for this snapshot. -/
theorem search_faq_token_cex :
    (match search_faq "hello" (some bracedUni) with
     | SearchResult.found ans _ _ _ _ => isSub (tokenL "university_name".data) ans.data
     | SearchResult.notFound _ _ => false) = true := by
  decide

/-- The clean snapshot of the C9 witness. -/
def cleanUni : University :=
  ⟨2, "University of Science and Technology", none, some "Algiers",
   some "https://www.usthb.dz", some "info@usthb.dz", some "+213 21 24 79 50",
   none, true⟩

set_option maxRecDepth 1000000 in
set_option maxHeartbeats 8000000 in
/-- Witness for C9: the clean snapshot is brace-free, the query `"hello"`
produces this concrete match, and no recognized token occurs in its rendered
answer. -/
theorem search_faq_no_token_witness :
    search_faq "hello" (some cleanUni) = SearchResult.found
      "Hello! Welcome to University of Science and Technology Chatbot. I\x27m here to help you with:\n- Course registration and enrollment\n- Tuition fees and payments\n- Academic information and grades\n- Campus facilities and services\n- Exams and schedules\n- Student services\n\nHow can I assist you today?"
      "Hello / Hi / Greetings" (63/100) "greeting" "en" ∧
    (∀ key ∈ recognizedKeys,
       isSub (tokenL key.data)
         "Hello! Welcome to University of Science and Technology Chatbot. I\x27m here to help you with:\n- Course registration and enrollment\n- Tuition fees and payments\n- Academic information and grades\n- Campus facilities and services\n- Exams and schedules\n- Student services\n\nHow can I assist you today?".data = false) := by
  have h : search_faq "hello" (some cleanUni) = SearchResult.found
      "Hello! Welcome to University of Science and Technology Chatbot. I\x27m here to help you with:\n- Course registration and enrollment\n- Tuition fees and payments\n- Academic information and grades\n- Campus facilities and services\n- Exams and schedules\n- Student services\n\nHow can I assist you today?"
      "Hello / Hi / Greetings" (63/100) "greeting" "en" := by decide
  exact ⟨h, search_faq_no_token_amended "hello" (some cleanUni) (by decide) _ _ _ _ _ h⟩
